import Mathlib

/-!
# A shallow embedding of the Janus gateway core (src/janus.c)

This file models, in Lean, the session/handle registry, the timeout
sweeper, the authorization check and the Janus-API request dispatcher of
`src/janus.c`, and proves properties of the model that settle the claims
of the specification.

Conventions:
* GLib hash tables keyed by `guint64` become association lists
  `List (Nat × _)` (first binding wins, as `g_hash_table_insert` replaces
  and our operations keep keys unique).
* Monotonic timestamps (`janus_get_monotonic_time`, microseconds) are `Int`.
* JSON values (`json_t`) become the inductive `JVal`; a top-level request
  body is an association list of fields, `JObj`.
* External collaborators (ICE stack, SDP parser, plugins, auth module,
  transports) are oracles carried in `Config`/`Externals`; the calls the
  core makes into them are recorded in an `XCall` trace.
-/

namespace Janus

/-- JSON values, as much of `json_t` as `janus.c` inspects. -/
inductive JVal where
  | str (s : String)
  | int (n : Int)
  | bool (b : Bool)
  | obj (fields : List (String × JVal))
  | arr (elems : List JVal)
  | null

/-- A top-level JSON object (the parsed request body `root`). -/
abbrev JObj := List (String × JVal)

/-- `json_object_get(root, key)`: NULL becomes `none`. -/
def jget (root : JObj) (key : String) : Option JVal :=
  (root.find? (fun p => p.1 == key)).map Prod.snd

/-- `json_is_string`. -/
def jIsString : Option JVal → Bool
  | some (.str _) => true
  | _ => false

/-- `json_is_integer`. -/
def jIsInteger : Option JVal → Bool
  | some (.int _) => true
  | _ => false

/-- `json_string_value`: NULL (here `none`) unless the value is a string. -/
def jStringValue : Option JVal → Option String
  | some (.str s) => some s
  | _ => none

/-- `json_integer_value`: 0 unless the value is an integer. -/
def jIntegerValue : Option JVal → Int
  | some (.int n) => n
  | _ => 0

/-- `json_is_true`. -/
def jIsTrue : Option JVal → Bool
  | some (.bool b) => b
  | _ => false

/-- `json_is_object`. -/
def jIsObject : Option JVal → Bool
  | some (.obj _) => true
  | _ => false

/-- `json_is_array`. -/
def jIsArray : Option JVal → Bool
  | some (.arr _) => true
  | _ => false

/-- Conversion of a `json_int_t` to `guint64`, as in
`guint64 session_id = json_integer_value(s)`. -/
def toU64 (n : Int) : Nat := (n % (2 ^ 64)).toNat

/-- ASCII lower-casing of one character, as `strcasecmp` does per byte. -/
def lowerChar (c : Char) : Char :=
  if 'A' ≤ c ∧ c ≤ 'Z' then Char.ofNat (c.toNat + 32) else c

/-- ASCII lower-casing of a string. -/
def lowerStr (s : String) : String := ⟨s.data.map lowerChar⟩

/-- `strcasecmp(a, b) == 0` (the verbs are ASCII). -/
def ceq (a b : String) : Bool := lowerStr a == lowerStr b

/-- `G_USEC_PER_SEC`. -/
def G_USEC_PER_SEC : Int := 1000000

/-- The error codes `janus.c` replies with (`JANUS_ERROR_*`). -/
inductive ErrCode where
  | unauthorized
  | unauthorizedPlugin
  | sessionNotFound
  | sessionConflict
  | handleNotFound
  | pluginNotFound
  | pluginAttach
  | pluginDetach
  | pluginMessage
  | missingMandatoryElement
  | invalidElementType
  | invalidJson
  | invalidJsonObject
  | invalidRequestPath
  | unknownRequest
  | jsepUnknownType
  | jsepInvalidSdp
  | unexpectedAnswer
  | webrtcState
  | unknown
deriving DecidableEq, Repr

/-- The reply the core sends back for one request (shape only: the kind of
`janus` message, the `session_id` field and the `data.id` / `hint`
payloads the claims talk about; the echoed transaction is omitted). -/
inductive Reply where
  | serverInfo
  | pong
  | success (sessionId : Nat) (dataId : Option Nat)
  | successPlugindata (sessionId : Nat) (sender : Nat)
  | ack (sessionId : Nat) (hint : Option String)
  | err (code : ErrCode) (sessionId : Nat)
deriving DecidableEq, Repr

/-- Modelled from the spec: a pending trickle entry
`{ transaction_id, candidate_or_array, received_at: Monotonic }`
(`janus_ice_trickle` lives in the ICE unit, outside `src/`; `janus.c`
constructs it with `janus_ice_trickle_new(transaction, candidate)` which
stores the payload and the reception timestamp). The drain in `janus.c`
also guards against a NULL candidate, hence the `Option`. -/
structure Trickle where
  transaction : Option String
  candidate : Option JVal
  received : Int

/-- The WebRTC flag bits of a handle that `janus.c` reads or writes
(`JANUS_ICE_HANDLE_WEBRTC_*`). -/
structure WebrtcFlags where
  processingOffer : Bool
  gotOffer : Bool
  gotAnswer : Bool
  ready : Bool
  alert : Bool
  trickleFlag : Bool
  allTrickles : Bool
  resendTrickles : Bool
  iceRestart : Bool
  cleaning : Bool
  startFlag : Bool
deriving DecidableEq, Repr

/-- An ICE handle, restricted to the fields `janus.c` touches. `app` is
the attached plugin's package name, `appHandle`/`appAlive` model
`handle->app_handle != NULL` and `janus_plugin_session_is_alive`;
`agent`/`stream` model the NULL-ness of `handle->agent`/`handle->stream`. -/
structure Handle where
  handleId : Nat
  opaqueId : Option String
  app : Option String
  appHandle : Bool
  appAlive : Bool
  agent : Bool
  stream : Bool
  flags : WebrtcFlags
  pendingTrickles : List Trickle
  remoteSdp : Option String

/-- A gateway session (`janus_session`): id, `destroyed` and `timeout`
latches, `last_activity`, the owned handle map, and the origin transport
instance (`session->source`, `none` when the source is NULL). -/
structure Session where
  sessionId : Nat
  destroyed : Bool
  timeout : Bool
  lastActivity : Int
  iceHandles : List (Nat × Handle)
  source : Option Nat

/-- The process-wide session registry (`sessions` hash table). -/
structure ServerState where
  sessions : List (Nat × Session)

/-- `g_hash_table_lookup` on an association list. -/
def tblLookup {α : Type} (tbl : List (Nat × α)) (k : Nat) : Option α :=
  (tbl.find? (fun p => p.1 == k)).map Prod.snd

/-- `g_hash_table_remove` on an association list. -/
def tblRemove {α : Type} (tbl : List (Nat × α)) (k : Nat) : List (Nat × α) :=
  tbl.filter (fun p => p.1 != k)

/-- `g_hash_table_insert` on an association list (replaces any previous
binding of the key). -/
def tblInsert {α : Type} (tbl : List (Nat × α)) (k : Nat) (v : α) : List (Nat × α) :=
  (k, v) :: tblRemove tbl k

/-- Static configuration and the auth-module oracle: `api_secret`,
`janus_auth_is_enabled`, `janus_auth_check_token`,
`janus_auth_check_plugin`, `janus_plugin_find` (by package name) and
`janus_ice_is_full_trickle_enabled`. -/
structure Config where
  apiSecret : Option String
  authEnabled : Bool
  checkToken : String → Bool
  checkPlugin : String → String → Bool
  pluginExists : String → Bool
  fullTrickle : Bool

/-- Calls the core makes into its external collaborators; the dispatcher
returns the trace of these alongside its reply. -/
inductive XCall where
  | iceSetupLocal (offer : Bool) (audio video data : Nat) (doTrickle : Bool)
  | sdpProcess (update : Bool)
  | iceRestartCall
  | trickleParse (c : JVal)
  | setupRemoteCandidates
  | handleAttach (plugin : String)
  | handleMessage
  | webrtcHangup
  | handleDestroy
  | sessionCreatedNotify (sid : Nat)
  | sessionOver (sid : Nat) (timedOut : Bool)
  | timeoutMessage (sid : Nat)

/-- `janus_plugin_result`: `JANUS_PLUGIN_OK` (with whether the content is
a valid JSON object), `JANUS_PLUGIN_OK_WAIT` (with the optional hint) or
an error with the optional text. -/
inductive PluginResult where
  | ok (contentValidObject : Bool)
  | okWait (hint : Option String)
  | errorResult (text : Option String)
deriving DecidableEq, Repr

/-- Oracles for the external calls whose results `janus.c` branches on:
`janus_sdp_preparse` (audio/video/data counts, `none` on parse failure),
`janus_ice_setup_local`, `janus_sdp_process`, `janus_sdp_anonymize`,
`janus_ice_handle_attach_plugin`, `janus_ice_handle_destroy`,
`janus_ice_trickle_parse`, the plugin's `handle_message` result, and
whether a pending `CLEANING` flag clears within the 3 s polling window. -/
structure Externals where
  sdpPreparse : String → Option (Nat × Nat × Nat)
  iceSetupLocalOk : Bool
  sdpProcessOk : Bool → Bool
  sdpAnonymizeOk : Bool
  attachPluginError : Nat
  detachError : Nat
  trickleParseErr : JVal → Option ErrCode
  pluginResult : Option PluginResult
  cleaningClears : Bool

/-! ## Session registry operations (`janus.c`) -/

/-- `janus_session_find`: a hash-table lookup (the refcount bump is not
modelled). Note that it does *not* inspect `destroyed`. -/
def janus_session_find (st : ServerState) (sessionId : Nat) : Option Session :=
  tblLookup st.sessions sessionId

/-- `janus_session_create`: if `session_id == 0` the id is drawn at random
until it is unused; the loop is modelled by the parameter `fresh`, which
the caller guarantees to be nonzero and unused (exactly the loop's exit
condition). The new session starts not destroyed, with the timeout latch
clear, `last_activity = now`, no handles and no source, and is inserted
into the registry. -/
def janus_session_create (fresh : Nat) (sessionId : Nat) (now : Int)
    (st : ServerState) : Session × ServerState :=
  let sid := if sessionId = 0 then fresh else sessionId
  let s : Session :=
    { sessionId := sid, destroyed := false, timeout := false,
      lastActivity := now, iceHandles := [], source := none }
  (s, ⟨tblInsert st.sessions sid s⟩)

/-- `janus_session_destroy`: compare-and-set of `destroyed` 0→1; when the
latch is taken the handle map is cleared (`janus_session_handles_clear`).
It does not remove the session from the registry. -/
def janus_session_destroy (s : Session) : Session :=
  if s.destroyed then s else { s with destroyed := true, iceHandles := [] }

/-- `janus_session_handles_find`. -/
def janus_session_handles_find (s : Session) (handleId : Nat) : Option Handle :=
  tblLookup s.iceHandles handleId

/-- `janus_session_handles_insert`. -/
def janus_session_handles_insert (s : Session) (h : Handle) : Session :=
  { s with iceHandles := tblInsert s.iceHandles h.handleId h }

/-- `janus_session_handles_remove` (the removal always happens, whatever
`janus_ice_handle_destroy` returned). -/
def janus_session_handles_remove (s : Session) (handleId : Nat) : Session :=
  { s with iceHandles := tblRemove s.iceHandles handleId }

/-- Write a session back into the registry under its own id (the C code
mutates the shared object in place). -/
def storeSession (st : ServerState) (s : Session) : ServerState :=
  ⟨tblInsert st.sessions s.sessionId s⟩

/-- Write a mutated handle back into its session and the session back into
the registry (in C both are mutations of shared objects). -/
def storeHandle (st : ServerState) (s : Session) (h : Handle) : ServerState :=
  storeSession st (janus_session_handles_insert s h)

/-! ## Authorization (`janus_request_check_secret`) -/

/-- The `secret_authorized` flag of `janus_request_check_secret`: an API
secret is configured and the request carries a string `apisecret` equal
to it (`janus_strcmp_const_time` is a constant-time string equality,
modelled as `==`). -/
def secretAuthorizedB (cfg : Config) (root : JObj) : Bool :=
  match cfg.apiSecret with
  | none => false
  | some sec =>
    let secret := jget root "apisecret"
    secret.isSome && jIsString secret && ((jStringValue secret).getD "" == sec)

/-- The `token_authorized` flag of `janus_request_check_secret`: token
auth is enabled and the request carries a string `token` that
`janus_auth_check_token` accepts. -/
def tokenAuthorizedB (cfg : Config) (root : JObj) : Bool :=
  cfg.authEnabled &&
    (let token := jget root "token"
     token.isSome && jIsString token && cfg.checkToken ((jStringValue token).getD ""))

/-- `janus_request_check_secret`: returns `none` when authorized, or the
error it replies with. -/
def janus_request_check_secret (cfg : Config) (root : JObj) : Option ErrCode :=
  if cfg.apiSecret = none ∧ ¬cfg.authEnabled then
    none
  else if !secretAuthorizedB cfg root && !tokenAuthorizedB cfg root then
    some .unauthorized
  else none

/-! ## Timeout sweeper (`janus_check_sessions`) -/

/-- One session under one sweeper tick. `g_atomic_int_compare_and_exchange
(&session->timeout, 0, 1)` succeeds (and latches the flag) exactly when
the latch was clear, so the *negated* test in
`now - last_activity >= timeout && !CAS(...)` runs the expiry body only
when the latch was already set; when the CAS succeeds the short-circuit
leaves the session in place with the latch now set. Returns `none` when
the session is removed from the registry, together with the transport
notifications sent. -/
def sweepSession (sessionTimeout : Nat) (now : Int) (s : Session) :
    Option Session × List XCall :=
  if s.destroyed then (some s, [])
  else if now - s.lastActivity ≥ (sessionTimeout : Int) * G_USEC_PER_SEC then
    if s.timeout then
      (none,
       if s.source.isSome then
         [.timeoutMessage s.sessionId, .sessionOver s.sessionId true]
       else [])
    else
      (some { s with timeout := true }, [])
  else (some s, [])

/-- `janus_check_sessions`: one tick of the sweeper over the registry.
With `session_timeout < 1` the sweeper does nothing. -/
def janus_check_sessions (sessionTimeout : Nat) (now : Int) (st : ServerState) :
    ServerState × List XCall :=
  if sessionTimeout < 1 then (st, [])
  else
    (⟨st.sessions.filterMap (fun p =>
        ((sweepSession sessionTimeout now p.2).1).map (fun s' => (p.1, s')))⟩,
     st.sessions.flatMap (fun p => (sweepSession sessionTimeout now p.2).2))

/-! ## `janus_transport_gone` -/

/-- `janus_transport_gone`: every live session whose source is the vanished
transport instance is destroyed and removed; sessions already destroyed,
already latched for timeout, or with `last_activity == 0` are skipped. -/
def janus_transport_gone (st : ServerState) (inst : Nat) : ServerState :=
  ⟨st.sessions.filter (fun p =>
     if p.2.destroyed || p.2.timeout || (p.2.lastActivity == 0) then true
     else !(p.2.source == some inst))⟩

/-! ## Draining pending trickles (`janus_request_ice_handle_answer`) -/

/-- The feeds into the ICE stack for one drained payload: a JSON object is
fed as a single candidate (`janus_ice_trickle_parse`), an array is fed
element by element, anything else is silently dropped. -/
def trickleFeeds (c : JVal) : List XCall :=
  match c with
  | .obj _ => [.trickleParse c]
  | .arr elems => elems.map XCall.trickleParse
  | _ => []

/-- The `while(handle->pending_trickles)` loop of
`janus_request_ice_handle_answer`: pop from the front; skip NULL entries;
discard entries received more than 45 s ago; feed the rest. -/
def drainPendingTrickles (now : Int) : List Trickle → List XCall
  | [] => []
  | t :: rest =>
    (match t.candidate with
     | none => []
     | some c =>
       if now - t.received > 45 * G_USEC_PER_SEC then [] else trickleFeeds c) ++
    drainPendingTrickles now rest

/-- `janus_request_ice_handle_answer`: clear `PROCESSING_OFFER`, drain the
pending-trickle queue, then either wait for remote candidates (set
`START` when the peer trickles and not all candidates have arrived) or
start connectivity checks right away. The `audio`/`video`/`data` counts
are only logged by the C code. -/
def janus_request_ice_handle_answer (now : Int) (audio video data : Nat)
    (h : Handle) : Handle × List XCall :=
  let _ := (audio, video, data)
  let h1 := { h with flags := { h.flags with processingOffer := false } }
  let calls := drainPendingTrickles now h1.pendingTrickles
  let h2 := { h1 with pendingTrickles := [] }
  if h2.flags.trickleFlag && !h2.flags.allTrickles then
    ({ h2 with flags := { h2.flags with startFlag := true } }, calls)
  else
    (h2, calls ++ [.setupRemoteCandidates])

/-! ## JSON validation (`JANUS_VALIDATE_JSON_OBJECT`)

Modelled from the spec: the validation macro lives in the shared utils
unit, outside `src/`; per the spec's error taxonomy a missing required
field yields `MISSING_MANDATORY_ELEMENT` and an ill-typed field
`INVALID_ELEMENT_TYPE`, checking the parameters in table order. -/

/-- Modelled from the spec: one parameter check — `required` fields must be
present; present fields must have the right type; `JSON_INTEGER` fields
flagged positive must be non-negative. -/
def checkParam (root : JObj) (key : String) (required : Bool)
    (typeOk : JVal → Bool) : Option ErrCode :=
  match jget root key with
  | none => if required then some .missingMandatoryElement else none
  | some v => if typeOk v then none else some .invalidElementType

/-- Type predicate for a required/optional string parameter. -/
def isStr : JVal → Bool
  | .str _ => true
  | _ => false

/-- Type predicate for a non-negative integer parameter
(`JSON_INTEGER` + `JANUS_JSON_PARAM_POSITIVE`). -/
def isPosInt : JVal → Bool
  | .int n => decide (0 ≤ n)
  | _ => false

/-- Type predicate for a boolean parameter. -/
def isBool : JVal → Bool
  | .bool _ => true
  | _ => false

/-- Type predicate for an object parameter. -/
def isObj : JVal → Bool
  | .obj _ => true
  | _ => false

/-- Modelled from the spec: `incoming_request_parameters` — `transaction`
(required string), `janus` (required string), `id` (optional non-negative
integer). -/
def validate_incoming_request (root : JObj) : Option ErrCode :=
  (checkParam root "transaction" true isStr).orElse fun _ =>
  (checkParam root "janus" true isStr).orElse fun _ =>
  checkParam root "id" false isPosInt

/-- Modelled from the spec: `attach_parameters` — `plugin` (required
string), `opaque_id` (optional string). -/
def validate_attach (root : JObj) : Option ErrCode :=
  (checkParam root "plugin" true isStr).orElse fun _ =>
  checkParam root "opaque_id" false isStr

/-- Modelled from the spec: `body_parameters` — `body` (required object). -/
def validate_body (root : JObj) : Option ErrCode :=
  checkParam root "body" true isObj

/-- Modelled from the spec: `jsep_parameters` — `type` (required string),
`trickle` (optional boolean), `sdp` (required string). -/
def validate_jsep (jsep : JObj) : Option ErrCode :=
  (checkParam jsep "type" true isStr).orElse fun _ =>
  (checkParam jsep "trickle" false isBool).orElse fun _ =>
  checkParam jsep "sdp" true isStr

/-! ## The Janus-API dispatcher (`janus_process_incoming_request`)

The dispatcher returns the reply it sends, the registry after the
request, and the trace of calls into external collaborators. The
parameters `freshSessionId`/`freshHandleId` stand for the ids
`janus_random_uint64`/`janus_ice_handle_create` would produce, and
`srcInstance` for `request->instance`. -/

/-- The id the `create` verb's caller asked for: `json_object_get(root,
"id")` and, when present, `json_integer_value` into a `guint64`; 0 both
when the field is absent and when it is 0. -/
def createRequestedId (root : JObj) : Nat :=
  match jget root "id" with
  | none => 0
  | some v => toU64 (jIntegerValue (some v))

/-- The root path (`session_id == 0 && handle_id == 0`): `info`, `ping`
and `create` (janus.c lines 790–854). -/
def processRootPath (cfg : Config) (now : Int) (freshSessionId srcInstance : Nat)
    (st : ServerState) (root : JObj) (verb : String) :
    Reply × ServerState × List XCall :=
  if ceq verb "info" then (.serverInfo, st, [])
  else if ceq verb "ping" then (.pong, st, [])
  else if !(ceq verb "create") then (.err .invalidRequestPath 0, st, [])
  else
    match janus_request_check_secret cfg root with
    | some e => (.err e 0, st, [])
    | none =>
      let requestedId := createRequestedId root
      if requestedId > 0 && (janus_session_find st requestedId).isSome then
        (.err .sessionConflict requestedId, st, [])
      else
        let (session, st1) := janus_session_create freshSessionId requestedId now st
        let session := { session with source := some srcInstance }
        let st2 := storeSession st1 session
        (.success 0 (some session.sessionId), st2,
         [.sessionCreatedNotify session.sessionId])

/-- Modelled from the spec: the fresh handle `janus_ice_handle_create`
builds and inserts into its session (the ICE unit is outside `src/`): the
given id, the caller's opaque id, no plugin bound yet, no agent, no
stream, all WebRTC flags clear, an empty pending-trickle queue. -/
def newIceHandle (fhid : Nat) (opq : Option String) : Handle :=
  { handleId := fhid, opaqueId := opq, app := none, appHandle := false,
    appAlive := false, agent := false, stream := false,
    flags := ⟨false, false, false, false, false, false, false, false,
              false, false, false⟩,
    pendingTrickles := [], remoteSdp := none }

/-- The `attach` verb (janus.c lines 897–956). `janus_ice_handle_create`
and `janus_ice_handle_attach_plugin` live in the ICE unit, outside
`src/`; modelled from the spec: "Create Handle; … invoke plugin's attach
hook; on failure remove the Handle" — creation inserts a fresh handle
into the session's map, the attach hook binds the plugin and its session
reference on success. -/
def processAttachVerb (cfg : Config) (ext : Externals) (freshHandleId : Nat)
    (st : ServerState) (root : JObj) (session : Session) (sessionId : Nat) :
    Reply × ServerState × List XCall :=
  match validate_attach root with
  | some e => (.err e sessionId, st, [])
  | none =>
    let pluginName := (jStringValue (jget root "plugin")).getD ""
    if !cfg.pluginExists pluginName then
      (.err .pluginNotFound sessionId, st, [])
    else if cfg.authEnabled &&
        (match jStringValue (jget root "token") with
         | some tok => !cfg.checkPlugin tok pluginName
         | none => false) then
      (.err .unauthorizedPlugin sessionId, st, [])
    else
      let h : Handle := newIceHandle freshHandleId (jStringValue (jget root "opaque_id"))
      let session1 := janus_session_handles_insert session h
      let st1 := storeSession st session1
      if ext.attachPluginError ≠ 0 then
        let session2 := janus_session_handles_remove session1 freshHandleId
        (.err .pluginAttach sessionId, storeSession st1 session2,
         [.handleAttach pluginName])
      else
        let h2 := { h with app := some pluginName, appHandle := true, appAlive := true }
        (.success sessionId (some freshHandleId), storeHandle st1 session1 h2,
         [.handleAttach pluginName])

/-- Clear `JANUS_ICE_HANDLE_WEBRTC_PROCESSING_OFFER`. -/
def clearPO (h : Handle) : Handle :=
  { h with flags := { h.flags with processingOffer := false } }

/-- The tail of the `message` verb (janus.c lines 1245–1319): re-check the
plugin session, call the plugin's `handle_message`, and map its result to
`success`+plugindata, `ack`+hint, or `PLUGIN_MESSAGE`. -/
def deliverToPlugin (ext : Externals) (st : ServerState) (session : Session)
    (sessionId handleId : Nat) (h : Handle) (trace : List XCall) :
    Reply × ServerState × List XCall :=
  if h.app.isNone || !h.appHandle || !h.appAlive then
    (.err .pluginMessage sessionId, storeHandle st session (clearPO h), trace)
  else
    let st1 := storeHandle st session h
    match ext.pluginResult with
    | none => (.err .pluginMessage sessionId, st1, trace ++ [.handleMessage])
    | some (.ok valid) =>
      if valid then
        (.successPlugindata sessionId handleId, st1, trace ++ [.handleMessage])
      else (.err .pluginMessage sessionId, st1, trace ++ [.handleMessage])
    | some (.okWait hint) => (.ack sessionId hint, st1, trace ++ [.handleMessage])
    | some (.errorResult _) =>
      (.err .pluginMessage sessionId, st1, trace ++ [.handleMessage])

/-- The JSEP part of the `message` verb after the type dispatch (janus.c
lines 1093–1243): pre-parse the SDP, then either the new-session path
(ICE setup for an offer, agent check for an answer, `sdp.process`, and on
an answer the pending-trickle drain) or the renegotiation path
(`sdp.process(update)`, ICE restart bookkeeping), then store the remote
SDP, anonymize, clear `PROCESSING_OFFER` and hand over to the plugin. -/
def processJsepBody (cfg : Config) (ext : Externals) (now : Int)
    (st : ServerState) (session : Session) (sessionId handleId : Nat)
    (h : Handle) (offer : Bool) (doTrickle : Bool) (sdp : String) :
    Reply × ServerState × List XCall :=
  let finish := fun (trace : List XCall) (h : Handle) =>
    let h := { h with remoteSdp := some sdp }
    if !ext.sdpAnonymizeOk then
      (.err .jsepInvalidSdp sessionId, storeHandle st session (clearPO h), trace)
    else
      deliverToPlugin ext st session sessionId handleId (clearPO h) trace
  match ext.sdpPreparse sdp with
  | none => (.err .jsepInvalidSdp sessionId, storeHandle st session (clearPO h), [])
  | some (audio, video, data) =>
    if !h.flags.ready || h.flags.alert then
      -- New session
      let afterSetup := fun (trace : List XCall) =>
        let trace := trace ++ [XCall.sdpProcess false]
        if !ext.sdpProcessOk false then
          (.err .jsepInvalidSdp sessionId, storeHandle st session (clearPO h), trace)
        else if !offer then
          let h := { h with flags := { h.flags with trickleFlag := true } }
          let hc := janus_request_ice_handle_answer now audio video data h
          finish (trace ++ hc.2) hc.1
        else finish trace h
      if offer then
        let trace := [XCall.iceSetupLocal true audio video data doTrickle]
        if !ext.iceSetupLocalOk then
          (.err .unknown sessionId, storeHandle st session (clearPO h), trace)
        else afterSetup trace
      else if !h.agent then
        (.err .unexpectedAnswer sessionId, storeHandle st session (clearPO h), [])
      else afterSetup []
    else
      -- Renegotiation
      let trace := [XCall.sdpProcess true]
      if !ext.sdpProcessOk true then
        (.err .unexpectedAnswer sessionId, storeHandle st session (clearPO h), trace)
      else if h.flags.iceRestart then
        let restarted :=
          if offer then (h, trace ++ [XCall.iceRestartCall])
          else ({ h with flags := { h.flags with iceRestart := false } }, trace)
        let h := if cfg.fullTrickle then
            { restarted.1 with flags := { restarted.1.flags with resendTrickles := true } }
          else restarted.1
        finish restarted.2 h
      else finish trace h

/-- The `message` verb (janus.c lines 1016–1319). -/
def processMessageVerb (cfg : Config) (ext : Externals) (now : Int)
    (st : ServerState) (root : JObj) (session : Session)
    (sessionId handleId : Nat) (h0 : Handle) :
    Reply × ServerState × List XCall :=
  if h0.app.isNone || !h0.appHandle then (.err .pluginMessage sessionId, st, [])
  else
    match validate_body root with
    | some e => (.err e sessionId, st, [])
    | none =>
      match jget root "jsep" with
      | none => deliverToPlugin ext st session sessionId handleId h0 []
      | some (.obj jsepFields) =>
        (match validate_jsep jsepFields with
         | some e => (.err e sessionId, st, [])
         | none =>
           let jsepType := (jStringValue (jget jsepFields "type")).getD ""
           let doTrickle :=
             match jget jsepFields "trickle" with
             | some t => jIsTrue (some t)
             | none => true
           if h0.flags.cleaning && !ext.cleaningClears then
             (.err .webrtcState sessionId, st, [])
           else
             let h1 := { h0 with flags := { h0.flags with cleaning := false } }
             if !(ceq jsepType "offer") && !(ceq jsepType "answer") then
               (.err .jsepUnknownType sessionId, storeHandle st session (clearPO h1), [])
             else
               let offer := ceq jsepType "offer"
               let h2 :=
                 if offer then
                   { h1 with flags := { h1.flags with
                       processingOffer := true, gotOffer := true, gotAnswer := false } }
                 else
                   { h1 with flags := { h1.flags with gotAnswer := true } }
               let sdp := (jStringValue (jget jsepFields "sdp")).getD ""
               processJsepBody cfg ext now st session sessionId handleId h2
                 offer doTrickle sdp)
      | some _ => (.err .invalidJsonObject sessionId, st, [])

/-- The `trickle` verb (janus.c lines 1320–1412). A queued entry is
`janus_ice_trickle_new(transaction, candidate ? candidate : candidates)`
received `now`. -/
def processTrickleVerb (ext : Externals) (now : Int) (st : ServerState)
    (root : JObj) (session : Session) (sessionId handleId : Nat) (h0 : Handle) :
    Reply × ServerState × List XCall :=
  let _ := handleId
  if h0.app.isNone || !h0.appHandle || !h0.appAlive then
    (.err .pluginMessage sessionId, st, [])
  else
    let candidate := jget root "candidate"
    let candidates := jget root "candidates"
    if candidate.isNone && candidates.isNone then
      (.err .missingMandatoryElement sessionId, st, [])
    else if candidate.isSome && candidates.isSome then
      (.err .invalidJson sessionId, st, [])
    else if h0.flags.cleaning then
      (.err .webrtcState sessionId, st, [])
    else
      let h := { h0 with flags := { h0.flags with trickleFlag := true } }
      let payload := match candidate with | some c => some c | none => candidates
      let queueIt :=
        let t : Trickle :=
          ⟨jStringValue (jget root "transaction"), payload, now⟩
        let h1 := { h with pendingTrickles := h.pendingTrickles ++ [t] }
        (Reply.ack sessionId none, storeHandle st session h1, ([] : List XCall))
      if !h.stream then queueIt
      else if h.flags.processingOffer || !h.flags.gotOffer || !h.flags.gotAnswer then
        queueIt
      else
        match candidate with
        | some c =>
          (match ext.trickleParseErr c with
           | some e => (.err e sessionId, storeHandle st session h, [.trickleParse c])
           | none => (.ack sessionId none, storeHandle st session h, [.trickleParse c]))
        | none =>
          match candidates with
          | some (.arr elems) =>
            (.ack sessionId none, storeHandle st session h,
             elems.map XCall.trickleParse)
          | some _ => (.err .invalidElementType sessionId, storeHandle st session h, [])
          | none => (.ack sessionId none, storeHandle st session h, [])

/-- The per-verb dispatch once the session (and the handle, when one is
addressed) has been resolved (janus.c lines 890–1415). -/
def dispatchVerb (cfg : Config) (ext : Externals) (now : Int) (freshHandleId : Nat)
    (st : ServerState) (root : JObj) (verb : String)
    (session : Session) (sessionId handleId : Nat) (handle : Option Handle) :
    Reply × ServerState × List XCall :=
  if ceq verb "keepalive" then (.ack sessionId none, st, [])
  else if ceq verb "attach" then
    match handle with
    | some _ => (.err .invalidRequestPath sessionId, st, [])
    | none => processAttachVerb cfg ext freshHandleId st root session sessionId
  else if ceq verb "destroy" then
    match handle with
    | some _ => (.err .invalidRequestPath sessionId, st, [])
    | none =>
      let st1 : ServerState := ⟨tblRemove st.sessions session.sessionId⟩
      let evs := if session.source.isSome then [XCall.sessionOver sessionId false] else []
      let _ := janus_session_destroy session
      (.success sessionId none, st1, evs)
  else if ceq verb "detach" then
    match handle with
    | none => (.err .invalidRequestPath sessionId, st, [])
    | some h =>
      if h.app.isNone || !h.appHandle then (.err .pluginDetach sessionId, st, [])
      else
        let session1 := janus_session_handles_remove session handleId
        let st1 := storeSession st session1
        if ext.detachError ≠ 0 then (.err .pluginDetach sessionId, st1, [.handleDestroy])
        else (.success sessionId none, st1, [.handleDestroy])
  else if ceq verb "hangup" then
    match handle with
    | none => (.err .invalidRequestPath sessionId, st, [])
    | some h =>
      if h.app.isNone || !h.appHandle then (.err .pluginDetach sessionId, st, [])
      else (.success sessionId none, st, [.webrtcHangup])
  else if ceq verb "message" then
    match handle with
    | none => (.err .invalidRequestPath sessionId, st, [])
    | some h => processMessageVerb cfg ext now st root session sessionId handleId h
  else if ceq verb "trickle" then
    match handle with
    | none => (.err .invalidRequestPath sessionId, st, [])
    | some h => processTrickleVerb ext now st root session sessionId handleId h
  else (.err .unknownRequest sessionId, st, [])

/-- The session-addressed path (janus.c lines 855–888 then the verb
dispatch): id sanity checks, authorization, session lookup,
`last_activity` bump, optional handle lookup. -/
def processSessionPath (cfg : Config) (ext : Externals) (now : Int)
    (freshHandleId : Nat) (st : ServerState) (root : JObj) (verb : String)
    (sessionId handleId : Nat) (hPresent : Bool) :
    Reply × ServerState × List XCall :=
  if sessionId < 1 then (.err .sessionNotFound sessionId, st, [])
  else if hPresent && handleId < 1 then (.err .sessionNotFound sessionId, st, [])
  else
    match janus_request_check_secret cfg root with
    | some e => (.err e sessionId, st, [])
    | none =>
      match janus_session_find st sessionId with
      | none => (.err .sessionNotFound sessionId, st, [])
      | some s0 =>
        let session := { s0 with lastActivity := now }
        let st1 := storeSession st session
        if handleId > 0 then
          match janus_session_handles_find session handleId with
          | none => (.err .handleNotFound sessionId, st1, [])
          | some h =>
            dispatchVerb cfg ext now freshHandleId st1 root verb session
              sessionId handleId (some h)
        else
          dispatchVerb cfg ext now freshHandleId st1 root verb session
            sessionId handleId none

/-- `janus_process_incoming_request`: read the ids, validate the top-level
fields, and take either the root path or the session path. -/
def janus_process_incoming_request (cfg : Config) (ext : Externals) (now : Int)
    (freshSessionId freshHandleId srcInstance : Nat)
    (st : ServerState) (root : JObj) : Reply × ServerState × List XCall :=
  let s := jget root "session_id"
  let sessionId := if jIsInteger s then toU64 (jIntegerValue s) else 0
  let hField := jget root "handle_id"
  let handleId := if jIsInteger hField then toU64 (jIntegerValue hField) else 0
  match validate_incoming_request root with
  | some e => (.err e sessionId, st, [])
  | none =>
    let verb := (jStringValue (jget root "janus")).getD ""
    if sessionId = 0 && handleId = 0 then
      processRootPath cfg now freshSessionId srcInstance st root verb
    else
      processSessionPath cfg ext now freshHandleId st root verb sessionId handleId
        hField.isSome

/-! ## Concrete fixtures used to exercise the model -/

/-- A configuration with no API secret and token auth off. -/
def noAuthCfg : Config :=
  ⟨none, false, fun _ => false, fun _ _ => true, fun _ => true, false⟩

/-- A configuration with an API secret and token auth off. -/
def secretCfg : Config :=
  ⟨some "s3cr3t", false, fun _ => false, fun _ _ => true, fun _ => true, false⟩

/-- A configuration with token auth on: `tokOK` is a valid token allowed
only for `plugin.echo`. -/
def tokenCfg : Config :=
  ⟨none, true, fun t => t == "tokOK",
   fun t p => t == "tokOK" && p == "plugin.echo",
   fun p => p == "plugin.echo" || p == "plugin.video", false⟩

/-- Externals whose calls all succeed. -/
def okExt : Externals :=
  ⟨fun _ => some (1, 1, 0), true, fun _ => true, true, 0, 0,
   fun _ => none, some (.okWait none), true⟩

/-- All WebRTC flags clear. -/
def flags0 : WebrtcFlags :=
  ⟨false, false, false, false, false, false, false, false, false, false, false⟩

/-- A handle attached to `plugin.echo`, id 7. -/
def echoHandle : Handle :=
  ⟨7, none, some "plugin.echo", true, true, false, false, flags0, [], none⟩

/-- A session with id 42, one handle, a transport source, idle since 0. -/
def baseSession : Session := ⟨42, false, false, 0, [(7, echoHandle)], some 1⟩

/-- A registry holding just `baseSession`. -/
def baseState : ServerState := ⟨[(42, baseSession)]⟩

/-- A keepalive request addressing both the session and the handle. -/
def keepaliveHRoot : JObj :=
  [("janus", .str "keepalive"), ("transaction", .str "t"),
   ("session_id", .int 42), ("handle_id", .int 7)]

/-- The base registry with the session's timeout latch already set. -/
def latchedState : ServerState := ⟨[(42, { baseSession with timeout := true })]⟩

/-- A configuration with both an API secret and token auth enabled;
no token may access `plugin.video`. -/
def secretTokenCfg : Config :=
  ⟨some "s3cr3t", true, fun t => t == "tokOK",
   fun t p => t == "tokOK" && p == "plugin.echo",
   fun p => p == "plugin.echo" || p == "plugin.video", false⟩

/-- An attach to `plugin.video` carrying the valid token `tokOK`, which is
not allowed for that plugin. -/
def attachTokRoot : JObj :=
  [("janus", .str "attach"), ("transaction", .str "t"),
   ("session_id", .int 42), ("plugin", .str "plugin.video"),
   ("token", .str "tokOK")]

/-- An attach to `plugin.video` authorized by the API secret alone, with
no token field. -/
def attachSecretRoot : JObj :=
  [("janus", .str "attach"), ("transaction", .str "t"),
   ("session_id", .int 42), ("plugin", .str "plugin.video"),
   ("apisecret", .str "s3cr3t")]

/-- A destroy request for session 42. -/
def destroyRoot : JObj :=
  [("janus", .str "destroy"), ("transaction", .str "t"), ("session_id", .int 42)]

/-- A message carrying a JSEP answer, sent before any offer was made. -/
def msgAnswerRoot : JObj :=
  [("janus", .str "message"), ("transaction", .str "t"),
   ("session_id", .int 42), ("handle_id", .int 7), ("body", .obj []),
   ("jsep", .obj [("type", .str "answer"), ("sdp", .str "v=0")])]

/-- A trickle request carrying both `candidate` and `candidates`. -/
def trickleBothRoot : JObj :=
  [("janus", .str "trickle"), ("transaction", .str "t"),
   ("session_id", .int 42), ("handle_id", .int 7),
   ("candidate", .obj []), ("candidates", .arr [])]

/-- A trickle request carrying neither `candidate` nor `candidates`. -/
def trickleNeitherRoot : JObj :=
  [("janus", .str "trickle"), ("transaction", .str "t"),
   ("session_id", .int 42), ("handle_id", .int 7)]

/-- A pending-trickle queue: a candidate received at 5 s (stale by 60 s),
a fresh object candidate received at 20 s, and a fresh two-candidate
array received at 30 s. -/
def trickleQueueW : List Trickle :=
  [⟨some "t1", some (.obj [("c", .str "stale")]), 5 * G_USEC_PER_SEC⟩,
   ⟨some "t2", some (.obj [("c", .str "fresh")]), 20 * G_USEC_PER_SEC⟩,
   ⟨some "t3", some (.arr [.str "a1", .str "a2"]), 30 * G_USEC_PER_SEC⟩]

/-! ## Association-table lemmas -/

theorem tblLookup_cons {α : Type} (hd : Nat × α) (tl : List (Nat × α)) (k : Nat) :
    tblLookup (hd :: tl) k = if hd.1 = k then some hd.2 else tblLookup tl k := by
  by_cases h : hd.1 = k
  · rw [if_pos h]
    unfold tblLookup
    rw [List.find?_cons_of_pos _ (by simpa using h)]
    rfl
  · rw [if_neg h]
    unfold tblLookup
    rw [List.find?_cons_of_neg _ (by simpa using h)]

theorem tblRemove_cons {α : Type} (hd : Nat × α) (tl : List (Nat × α)) (k : Nat) :
    tblRemove (hd :: tl) k =
      if hd.1 = k then tblRemove tl k else hd :: tblRemove tl k := by
  by_cases h : hd.1 = k
  · simp [tblRemove, List.filter_cons, h]
  · simp [tblRemove, List.filter_cons, h]

theorem tblLookup_insert_self {α : Type} (tbl : List (Nat × α)) (k : Nat) (v : α) :
    tblLookup (tblInsert tbl k v) k = some v := by
  rw [tblInsert, tblLookup_cons]
  simp

theorem tblLookup_remove_self {α : Type} (tbl : List (Nat × α)) (k : Nat) :
    tblLookup (tblRemove tbl k) k = none := by
  induction tbl with
  | nil => rfl
  | cons hd tl ih =>
    rw [tblRemove_cons]
    by_cases h : hd.1 = k
    · rw [if_pos h]; exact ih
    · rw [if_neg h, tblLookup_cons, if_neg h]; exact ih

theorem tblLookup_remove_ne {α : Type} (tbl : List (Nat × α)) (k k' : Nat)
    (h : k' ≠ k) : tblLookup (tblRemove tbl k) k' = tblLookup tbl k' := by
  induction tbl with
  | nil => rfl
  | cons hd tl ih =>
    rw [tblRemove_cons]
    by_cases hk : hd.1 = k
    · have hk' : ¬(hd.1 = k') := fun hc => h (by rw [← hc, hk])
      rw [if_pos hk, tblLookup_cons hd tl, if_neg hk']
      exact ih
    · rw [if_neg hk, tblLookup_cons, tblLookup_cons]
      by_cases hk' : hd.1 = k'
      · rw [if_pos hk', if_pos hk']
      · rw [if_neg hk', if_neg hk']; exact ih

theorem tblLookup_insert_ne {α : Type} (tbl : List (Nat × α)) (k k' : Nat) (v : α)
    (h : k' ≠ k) : tblLookup (tblInsert tbl k v) k' = tblLookup tbl k' := by
  rw [tblInsert, tblLookup_cons, if_neg (fun hc : k = k' => h hc.symm)]
  exact tblLookup_remove_ne tbl k k' h

theorem tblLookup_mem {α : Type} {tbl : List (Nat × α)} {k : Nat} {v : α}
    (h : tblLookup tbl k = some v) : (k, v) ∈ tbl := by
  induction tbl with
  | nil => simp [tblLookup] at h
  | cons hd tl ih =>
    rw [tblLookup_cons] at h
    by_cases hk : hd.1 = k
    · rw [if_pos hk] at h
      obtain ⟨a, b⟩ := hd
      simp only at hk
      subst hk
      injection h with h2
      subst h2
      exact List.Mem.head _
    · rw [if_neg hk] at h
      exact List.Mem.tail _ (ih h)

/-! ## Registry liveness: sessions in the table are never destroyed -/

/-- Every session held by the registry has `destroyed = false`. -/
def RegistryLive (st : ServerState) : Prop :=
  ∀ p ∈ st.sessions, p.2.destroyed = false

theorem find_live {st : ServerState} {sid : Nat} {s : Session}
    (hlive : RegistryLive st) (h : janus_session_find st sid = some s) :
    s.destroyed = false :=
  hlive _ (tblLookup_mem h)

theorem live_store {st : ServerState} {s : Session}
    (hlive : RegistryLive st) (hs : s.destroyed = false) :
    RegistryLive (storeSession st s) := by
  intro p hp
  rcases List.mem_cons.mp hp with h | h
  · subst h; exact hs
  · exact hlive _ (List.mem_of_mem_filter h)

theorem live_removeTbl {st : ServerState} (k : Nat)
    (hlive : RegistryLive st) : RegistryLive ⟨tblRemove st.sessions k⟩ := by
  intro p hp
  exact hlive _ (List.mem_of_mem_filter hp)

theorem live_storeHandle {st : ServerState} {s : Session} {h : Handle}
    (hlive : RegistryLive st) (hs : s.destroyed = false) :
    RegistryLive (storeHandle st s h) :=
  live_store hlive hs

/-! ## C4: authorization -/

theorem secretAuth_char (sec : String) (o : Option JVal) :
    (o.isSome && jIsString o && ((jStringValue o).getD "" == sec)) = true ↔
    jStringValue o = some sec := by
  cases o with
  | none => simp [jIsString, jStringValue]
  | some v => cases v <;> simp [jIsString, jStringValue]

theorem tokenAuth_char (check : String → Bool) (o : Option JVal) :
    (o.isSome && jIsString o && check ((jStringValue o).getD "")) = true ↔
    ∃ tok, jStringValue o = some tok ∧ check tok = true := by
  cases o with
  | none => simp [jIsString, jStringValue]
  | some v => cases v <;> simp [jIsString, jStringValue]

theorem check_secret_ne_none (cfg : Config) (root : JObj) {e : ErrCode}
    (h : janus_request_check_secret cfg root = some e) : e = .unauthorized := by
  unfold janus_request_check_secret at h
  split at h
  · exact absurd h (by simp)
  · split at h
    · injection h with h'; exact h'.symm
    · exact absurd h (by simp)

theorem secretAuthorizedB_iff (cfg : Config) (root : JObj) :
    secretAuthorizedB cfg root = true ↔
    ∃ sec, cfg.apiSecret = some sec ∧
      jStringValue (jget root "apisecret") = some sec := by
  unfold secretAuthorizedB
  rcases h : cfg.apiSecret with _ | sec
  · simp
  · simp only []
    rw [secretAuth_char]
    constructor
    · intro hx; exact ⟨sec, rfl, hx⟩
    · rintro ⟨s', hs', hv⟩
      injection hs' with he
      subst he
      exact hv

theorem tokenAuthorizedB_iff (cfg : Config) (root : JObj) :
    tokenAuthorizedB cfg root = true ↔
    (cfg.authEnabled = true ∧
      ∃ tok, jStringValue (jget root "token") = some tok ∧
        cfg.checkToken tok = true) := by
  unfold tokenAuthorizedB
  rw [Bool.and_eq_true]
  exact and_congr_right fun _ => tokenAuth_char cfg.checkToken (jget root "token")

theorem check_secret_none_char (cfg : Config) (root : JObj) :
    janus_request_check_secret cfg root = none ↔
      (secretAuthorizedB cfg root = true ∨ tokenAuthorizedB cfg root = true ∨
       (cfg.apiSecret = none ∧ cfg.authEnabled = false)) := by
  unfold janus_request_check_secret
  by_cases hc : cfg.apiSecret = none ∧ ¬cfg.authEnabled
  · rw [if_pos hc]
    exact iff_of_true rfl (Or.inr (Or.inr ⟨hc.1, by simpa using hc.2⟩))
  · rw [if_neg hc]
    have hc' : ¬(cfg.apiSecret = none ∧ cfg.authEnabled = false) := by
      intro ⟨a, b⟩; exact hc ⟨a, by simp [b]⟩
    cases hsa : secretAuthorizedB cfg root
    · cases hta : tokenAuthorizedB cfg root
      · rw [if_pos (by simp [hsa, hta])]
        exact iff_of_false (by simp) (by simp [hc'])
      · rw [if_neg (by simp [hta])]
        exact iff_of_true rfl (Or.inr (Or.inl rfl))
    · rw [if_neg (by simp [hsa])]
      exact iff_of_true rfl (Or.inl rfl)

/-- C4: a request passes `janus_request_check_secret` iff (a) an API
secret is configured and the request's `apisecret` string equals it, or
(b) token auth is enabled and the request carries a `token` string the
auth module recognizes, or (c) neither mechanism is configured; any other
request is answered `UNAUTHORIZED` and, both on the session path and on
the `create` path, the verb is not processed: the registry is unchanged
and no external call is made. -/
theorem C4_request_authorization (cfg : Config) (root : JObj) :
    (janus_request_check_secret cfg root = none ↔
      ((∃ sec, cfg.apiSecret = some sec ∧
          jStringValue (jget root "apisecret") = some sec) ∨
       (cfg.authEnabled = true ∧
          ∃ tok, jStringValue (jget root "token") = some tok ∧
            cfg.checkToken tok = true) ∨
       (cfg.apiSecret = none ∧ cfg.authEnabled = false))) ∧
    (∀ e, janus_request_check_secret cfg root = some e → e = .unauthorized) ∧
    (∀ (ext : Externals) (now : Int) (fhid : Nat) (st : ServerState)
       (verb : String) (sid hid : Nat) (hp : Bool),
       janus_request_check_secret cfg root = some .unauthorized →
       1 ≤ sid → ¬(hp = true ∧ hid < 1) →
       processSessionPath cfg ext now fhid st root verb sid hid hp =
         (.err .unauthorized sid, st, [])) ∧
    (∀ (now : Int) (fsid inst : Nat) (st : ServerState),
       janus_request_check_secret cfg root = some .unauthorized →
       processRootPath cfg now fsid inst st root "create" =
         (.err .unauthorized 0, st, [])) := by
  refine ⟨?_, fun e h => check_secret_ne_none cfg root h, ?_, ?_⟩
  · rw [check_secret_none_char, secretAuthorizedB_iff, tokenAuthorizedB_iff]
  · intro ext now fhid st verb sid hid hp hsec hsid hhid
    unfold processSessionPath
    rw [if_neg (by omega), if_neg ?_, hsec]
    simp only [Bool.and_eq_true, decide_eq_true_eq, not_and]
    intro hhp hlt
    exact hhid ⟨hhp, hlt⟩
  · intro now fsid inst st hsec
    unfold processRootPath
    rw [if_neg (by decide), if_neg (by decide), if_neg (by decide), hsec]

/-- C4, exercised: a request carrying the configured API secret passes the
check, and a bare request under the same configuration is refused on the
session path with `UNAUTHORIZED`, leaving the registry untouched. -/
theorem C4_request_authorization_witness :
    janus_request_check_secret secretCfg [("apisecret", .str "s3cr3t")] = none ∧
    processSessionPath secretCfg okExt 0 1 baseState [] "keepalive" 42 0 false =
      (.err .unauthorized 42, baseState, []) :=
  ⟨(C4_request_authorization secretCfg [("apisecret", .str "s3cr3t")]).1.mpr
      (Or.inl ⟨"s3cr3t", rfl, rfl⟩),
   (C4_request_authorization secretCfg []).2.2.1 okExt 0 1 baseState
      "keepalive" 42 0 false rfl (by decide) (by simp)⟩

/-! ## C3: the pending-trickle drain -/

theorem drainPendingTrickles_eq (now : Int) (l : List Trickle)
    (hwf : ∀ t ∈ l, t.candidate.isSome = true) :
    drainPendingTrickles now l =
      (l.filter (fun t => !decide (now - t.received > 45 * G_USEC_PER_SEC))).flatMap
        (fun t => trickleFeeds (t.candidate.getD .null)) := by
  induction l with
  | nil => rfl
  | cons t rest ih =>
    have ht := hwf t (List.Mem.head _)
    obtain ⟨c, hc⟩ := Option.isSome_iff_exists.mp ht
    have ihr := ih (fun u hu => hwf u (List.Mem.tail _ hu))
    by_cases hage : now - t.received > 45 * G_USEC_PER_SEC
    · simp [drainPendingTrickles, List.filter_cons, hc, hage, ihr]
    · simp [drainPendingTrickles, List.filter_cons, hc, hage, ihr]

/-- C3: when an answer is processed, the pending-trickle queue is drained
front to back (FIFO): the ICE feeds are exactly, in order, the feeds of
the entries whose age does not exceed 45 s, entries older than 45 s
contribute nothing, and the queue is left empty; the overall trace of the
answer handler is the drain's feeds, possibly followed by the
start-connectivity-checks call. -/
theorem C3_answer_drains_pending_trickles (now : Int) (audio video data : Nat)
    (h : Handle) (hwf : ∀ t ∈ h.pendingTrickles, t.candidate.isSome = true) :
    drainPendingTrickles now h.pendingTrickles =
      (h.pendingTrickles.filter
        (fun t => !decide (now - t.received > 45 * G_USEC_PER_SEC))).flatMap
        (fun t => trickleFeeds (t.candidate.getD .null)) ∧
    (janus_request_ice_handle_answer now audio video data h).1.pendingTrickles = [] ∧
    ((janus_request_ice_handle_answer now audio video data h).2 =
       drainPendingTrickles now h.pendingTrickles ∨
     (janus_request_ice_handle_answer now audio video data h).2 =
       drainPendingTrickles now h.pendingTrickles ++ [.setupRemoteCandidates]) := by
  refine ⟨drainPendingTrickles_eq now h.pendingTrickles hwf, ?_, ?_⟩
  · unfold janus_request_ice_handle_answer
    dsimp only
    split <;> rfl
  · unfold janus_request_ice_handle_answer
    dsimp only
    split
    · exact Or.inl rfl
    · exact Or.inr rfl

/-- C3, exercised: a queue holding one 50 s old candidate, one fresh
object candidate and one fresh two-element array is drained into exactly
the three fresh feeds, in FIFO order, and the queue is emptied. -/
theorem C3_answer_drains_pending_trickles_witness :
    (∀ t ∈ trickleQueueW, t.candidate.isSome = true) ∧
    drainPendingTrickles (60 * G_USEC_PER_SEC) trickleQueueW =
      [.trickleParse (.obj [("c", .str "fresh")]),
       .trickleParse (.str "a1"), .trickleParse (.str "a2")] ∧
    (janus_request_ice_handle_answer (60 * G_USEC_PER_SEC) 1 1 0
      { echoHandle with pendingTrickles := trickleQueueW }).1.pendingTrickles = [] :=
  ⟨by decide,
   by
    have := (C3_answer_drains_pending_trickles (60 * G_USEC_PER_SEC) 1 1 0
      { echoHandle with pendingTrickles := trickleQueueW } (by decide)).1
    rw [this]
    rfl,
   (C3_answer_drains_pending_trickles (60 * G_USEC_PER_SEC) 1 1 0
      { echoHandle with pendingTrickles := trickleQueueW } (by decide)).2.1⟩

/-! ## Reduction of the pipeline to the verb dispatch -/

theorem main_session_handle (cfg : Config) (ext : Externals) (now : Int)
    (fsid fhid inst : Nat) (st : ServerState) (root : JObj) (verb : String)
    (sidI hidI : Int) (sid hid : Nat) (s : Session) (h : Handle)
    (hval : validate_incoming_request root = none)
    (hjanus : jget root "janus" = some (.str verb))
    (hsid : jget root "session_id" = some (.int sidI))
    (hsidv : toU64 sidI = sid) (hsid1 : 1 ≤ sid)
    (hhid : jget root "handle_id" = some (.int hidI))
    (hhidv : toU64 hidI = hid) (hhid1 : 1 ≤ hid)
    (hauth : janus_request_check_secret cfg root = none)
    (hfind : janus_session_find st sid = some s)
    (hhfind : tblLookup s.iceHandles hid = some h) :
    janus_process_incoming_request cfg ext now fsid fhid inst st root =
      dispatchVerb cfg ext now fhid
        (storeSession st { s with lastActivity := now }) root verb
        { s with lastActivity := now } sid hid (some h) := by
  unfold janus_process_incoming_request
  rw [hval]
  simp only [hsid, hhid, hjanus, jIsInteger, jIntegerValue, jStringValue,
    Option.getD_some, Option.isSome_some, if_true, ite_true, hsidv, hhidv]
  rw [if_neg (by simp; omega)]
  unfold processSessionPath
  rw [if_neg (by omega), if_neg (by simp; omega), hauth, hfind]
  simp only [if_pos (by omega : 0 < hid)]
  have hf : janus_session_handles_find { s with lastActivity := now } hid = some h := hhfind
  rw [hf]

theorem main_session_nohandle (cfg : Config) (ext : Externals) (now : Int)
    (fsid fhid inst : Nat) (st : ServerState) (root : JObj) (verb : String)
    (sidI : Int) (sid : Nat) (s : Session)
    (hval : validate_incoming_request root = none)
    (hjanus : jget root "janus" = some (.str verb))
    (hsid : jget root "session_id" = some (.int sidI))
    (hsidv : toU64 sidI = sid) (hsid1 : 1 ≤ sid)
    (hhid : jget root "handle_id" = none)
    (hauth : janus_request_check_secret cfg root = none)
    (hfind : janus_session_find st sid = some s) :
    janus_process_incoming_request cfg ext now fsid fhid inst st root =
      dispatchVerb cfg ext now fhid
        (storeSession st { s with lastActivity := now }) root verb
        { s with lastActivity := now } sid 0 none := by
  unfold janus_process_incoming_request
  rw [hval]
  simp only [hsid, hhid, hjanus, jIsInteger, jIntegerValue, jStringValue,
    Option.getD_some, Option.isSome_none, Option.isSome_some, if_true, ite_true,
    ite_false, if_false, hsidv]
  rw [if_neg (by simp; omega)]
  unfold processSessionPath
  rw [if_neg (by omega), if_neg (by simp), hauth, hfind]
  simp

theorem dispatch_trickle (cfg : Config) (ext : Externals) (now : Int)
    (fhid : Nat) (st : ServerState) (root : JObj) (session : Session)
    (sid hid : Nat) (h : Handle) :
    dispatchVerb cfg ext now fhid st root "trickle" session sid hid (some h) =
      processTrickleVerb ext now st root session sid hid h := by
  unfold dispatchVerb
  rw [if_neg (by decide), if_neg (by decide), if_neg (by decide),
    if_neg (by decide), if_neg (by decide), if_neg (by decide),
    if_pos (by decide)]

/-! ## C9: malformed trickle payloads -/

/-- C9: a `trickle` on a valid, plugin-attached handle that carries both
`candidate` and `candidates` is answered `INVALID_JSON`, and one that
carries neither is answered `MISSING_MANDATORY_ELEMENT`; in both cases
no external call is made (nothing reaches the ICE stack) and the
post-request registry still maps the session to the same untouched handle
(in particular its pending-trickle queue is unchanged). -/
theorem C9_trickle_payload_errors (cfg : Config) (ext : Externals) (now : Int)
    (fsid fhid inst : Nat) (st : ServerState) (root : JObj)
    (sidI hidI : Int) (sid hid : Nat) (s : Session) (h : Handle)
    (hval : validate_incoming_request root = none)
    (hjanus : jget root "janus" = some (.str "trickle"))
    (hsid : jget root "session_id" = some (.int sidI))
    (hsidv : toU64 sidI = sid) (hsid1 : 1 ≤ sid) (hsids : s.sessionId = sid)
    (hhid : jget root "handle_id" = some (.int hidI))
    (hhidv : toU64 hidI = hid) (hhid1 : 1 ≤ hid)
    (hauth : janus_request_check_secret cfg root = none)
    (hfind : janus_session_find st sid = some s)
    (hhfind : tblLookup s.iceHandles hid = some h)
    (happ : h.app.isSome = true) (hah : h.appHandle = true)
    (hal : h.appAlive = true) :
    ((jget root "candidate").isSome = true → (jget root "candidates").isSome = true →
      janus_process_incoming_request cfg ext now fsid fhid inst st root =
        (.err .invalidJson sid, storeSession st { s with lastActivity := now }, [])) ∧
    (jget root "candidate" = none → jget root "candidates" = none →
      janus_process_incoming_request cfg ext now fsid fhid inst st root =
        (.err .missingMandatoryElement sid,
         storeSession st { s with lastActivity := now }, [])) ∧
    janus_session_find (storeSession st { s with lastActivity := now }) sid =
      some { s with lastActivity := now } ∧
    janus_session_handles_find { s with lastActivity := now } hid = some h := by
  have hmain := main_session_handle cfg ext now fsid fhid inst st root "trickle"
    sidI hidI sid hid s h hval hjanus hsid hsidv hsid1 hhid hhidv hhid1 hauth
    hfind hhfind
  rw [hmain, dispatch_trickle]
  obtain ⟨ap, hap⟩ := Option.isSome_iff_exists.mp happ
  refine ⟨?_, ?_, ?_, hhfind⟩
  · intro hc hcs
    obtain ⟨c1, hc1⟩ := Option.isSome_iff_exists.mp hc
    obtain ⟨c2, hc2⟩ := Option.isSome_iff_exists.mp hcs
    unfold processTrickleVerb
    rw [hc1, hc2]
    simp [hap, hah, hal]
  · intro hc hcs
    unfold processTrickleVerb
    rw [hc, hcs]
    simp [hap, hah, hal]
  · have hk : ({ s with lastActivity := now } : Session).sessionId = sid := hsids
    rw [janus_session_find, storeSession, ← hk]
    exact tblLookup_insert_self _ _ _

/-- C9, exercised: on the base registry, a trickle carrying both fields is
refused with `INVALID_JSON` and one carrying neither with
`MISSING_MANDATORY_ELEMENT`, with no external call either way. -/
theorem C9_trickle_payload_errors_witness :
    janus_process_incoming_request noAuthCfg okExt 9 0 0 1 baseState
        trickleBothRoot =
      (.err .invalidJson 42,
       storeSession baseState { baseSession with lastActivity := 9 }, []) ∧
    janus_process_incoming_request noAuthCfg okExt 9 0 0 1 baseState
        trickleNeitherRoot =
      (.err .missingMandatoryElement 42,
       storeSession baseState { baseSession with lastActivity := 9 }, []) :=
  ⟨(C9_trickle_payload_errors noAuthCfg okExt 9 0 0 1 baseState trickleBothRoot
      42 7 42 7 baseSession echoHandle rfl rfl rfl (by decide) (by decide) rfl
      rfl rfl (by decide) rfl rfl rfl rfl rfl rfl).1 rfl rfl,
   (C9_trickle_payload_errors noAuthCfg okExt 9 0 0 1 baseState
      trickleNeitherRoot 42 7 42 7 baseSession echoHandle rfl rfl rfl
      (by decide) (by decide) rfl rfl rfl (by decide) rfl rfl rfl rfl rfl
      rfl).2.1 rfl rfl⟩

/-! ## C2: keepalive addressed at a handle -/

/-- C2 as stated is false on the code: a `keepalive` that addresses a
valid session *and* a valid handle (a session-level verb used with a
handle id) is answered with an `ack`, not with `INVALID_REQUEST_PATH` —
the keepalive branch of `janus_process_incoming_request` performs no
handle check. -/
theorem C2_counterexample :
    janus_session_find baseState 42 = some baseSession ∧
    tblLookup baseSession.iceHandles 7 = some echoHandle ∧
    (janus_process_incoming_request noAuthCfg okExt 9 0 0 1 baseState
        keepaliveHRoot).1 = .ack 42 none ∧
    Reply.ack 42 none ≠ .err .invalidRequestPath 42 :=
  ⟨rfl, rfl, rfl, by decide⟩

/-- C2 amended: a `keepalive` carrying both a valid session id and a valid
handle id is processed exactly like a session-only keepalive: the session's
`last_activity` is bumped and the reply is an `ack` (no
`INVALID_REQUEST_PATH` is produced and no external call is made). -/
theorem C2_amended (cfg : Config) (ext : Externals) (now : Int)
    (fsid fhid inst : Nat) (st : ServerState) (root : JObj)
    (sidI hidI : Int) (sid hid : Nat) (s : Session) (h : Handle)
    (hval : validate_incoming_request root = none)
    (hjanus : jget root "janus" = some (.str "keepalive"))
    (hsid : jget root "session_id" = some (.int sidI))
    (hsidv : toU64 sidI = sid) (hsid1 : 1 ≤ sid)
    (hhid : jget root "handle_id" = some (.int hidI))
    (hhidv : toU64 hidI = hid) (hhid1 : 1 ≤ hid)
    (hauth : janus_request_check_secret cfg root = none)
    (hfind : janus_session_find st sid = some s)
    (hhfind : tblLookup s.iceHandles hid = some h) :
    janus_process_incoming_request cfg ext now fsid fhid inst st root =
      (.ack sid none, storeSession st { s with lastActivity := now }, []) := by
  rw [main_session_handle cfg ext now fsid fhid inst st root "keepalive"
    sidI hidI sid hid s h hval hjanus hsid hsidv hsid1 hhid hhidv hhid1 hauth
    hfind hhfind]
  unfold dispatchVerb
  rw [if_pos (by decide)]

/-- C2 amended, exercised on the base registry. -/
theorem C2_amended_witness :
    janus_process_incoming_request noAuthCfg okExt 9 0 0 1 baseState
        keepaliveHRoot =
      (.ack 42 none, storeSession baseState { baseSession with lastActivity := 9 },
       []) :=
  C2_amended noAuthCfg okExt 9 0 0 1 baseState keepaliveHRoot 42 7 42 7
    baseSession echoHandle rfl rfl rfl (by decide) (by decide) rfl (by decide)
    (by decide) rfl rfl rfl

/-! ## C1: the timeout sweeper -/

theorem tblLookup_not_mem {α : Type} {l : List (Nat × α)} {k : Nat}
    (h : k ∉ l.map Prod.fst) : tblLookup l k = none := by
  induction l with
  | nil => rfl
  | cons hd tl ih =>
    rw [List.map_cons, List.mem_cons] at h
    push_neg at h
    rw [tblLookup_cons, if_neg (fun hc => h.1 hc.symm)]
    exact ih h.2

theorem sweep_keys_sub (tmo : Nat) (now : Int) (l : List (Nat × Session)) :
    ∀ k, k ∈ (l.filterMap (fun p =>
        ((sweepSession tmo now p.2).1).map (fun s' => (p.1, s')))).map Prod.fst →
      k ∈ l.map Prod.fst := by
  intro k hk
  obtain ⟨q, hq, hqk⟩ := List.mem_map.mp hk
  obtain ⟨p, hp, hpq⟩ := List.mem_filterMap.mp hq
  obtain ⟨s', _, hs'⟩ := Option.map_eq_some'.mp hpq
  exact List.mem_map.mpr ⟨p, hp, by rw [← hqk, ← hs']⟩

theorem sweep_lookup (tmo : Nat) (now : Int) (l : List (Nat × Session))
    (sid : Nat) (s : Session) (hnd : (l.map Prod.fst).Nodup)
    (hmem : (sid, s) ∈ l) :
    tblLookup (l.filterMap (fun p =>
        ((sweepSession tmo now p.2).1).map (fun s' => (p.1, s')))) sid =
      (sweepSession tmo now s).1 := by
  induction l with
  | nil => cases hmem
  | cons hd tl ih =>
    rw [List.map_cons, List.nodup_cons] at hnd
    rw [List.filterMap_cons]
    rcases List.mem_cons.mp hmem with he | hm
    · have hhd : hd = (sid, s) := he.symm
      subst hhd
      cases hsw : (sweepSession tmo now s).1 with
      | none =>
        simp only [hsw, Option.map_none']
        exact tblLookup_not_mem
          (fun hk => hnd.1 (sweep_keys_sub tmo now tl sid hk))
      | some s' =>
        simp only [hsw, Option.map_some']
        rw [tblLookup_cons]
        simp
    · have hsid : sid ∈ tl.map Prod.fst :=
        List.mem_map.mpr ⟨(sid, s), hm, rfl⟩
      have hne : hd.1 ≠ sid := fun hc => hnd.1 (hc ▸ hsid)
      cases hsw : (sweepSession tmo now hd.2).1 with
      | none =>
        simp only [hsw, Option.map_none']
        exact ih hnd.2 hm
      | some s' =>
        simp only [hsw, Option.map_some']
        rw [tblLookup_cons, if_neg hne]
        exact ih hnd.2 hm

/-- C1 as stated is false on the code: on a tick that observes an expired
session (`now − last_activity ≥ timeout`, here 61 s idle against a 60 s
timeout), not destroyed, with the timeout latch still clear and a live
transport source, `janus_check_sessions` only latches the flag — the
session is still in the registry after the tick and no timeout
notification is sent. The negated compare-and-swap
`!g_atomic_int_compare_and_exchange(&session->timeout, 0, 1)` makes the
expiry body run only when the latch was already set. -/
theorem C1_counterexample :
    (61 * G_USEC_PER_SEC - baseSession.lastActivity ≥ 60 * G_USEC_PER_SEC ∧
     baseSession.destroyed = false ∧ baseSession.timeout = false ∧
     baseSession.source.isSome = true) ∧
    tblLookup (janus_check_sessions 60 (61 * G_USEC_PER_SEC) baseState).1.sessions
        42 = some { baseSession with timeout := true } ∧
    (janus_check_sessions 60 (61 * G_USEC_PER_SEC) baseState).2 = [] :=
  ⟨⟨by decide, rfl, rfl, rfl⟩, rfl, rfl⟩

/-- C1 amended: a sweeper tick that observes an expired, non-destroyed
session with the timeout latch still clear only latches the flag
(false→true) and neither removes the session nor notifies anyone on that
tick; the cleanup — transport timeout notification, `session_over`, and
removal from the registry — happens on a tick that observes the session
expired, non-destroyed and with the latch already set. -/
theorem C1_amended (tmo : Nat) (now : Int) (st : ServerState) (sid : Nat)
    (s : Session) (htmo : 1 ≤ tmo)
    (hnd : (st.sessions.map Prod.fst).Nodup)
    (hmem : (sid, s) ∈ st.sessions)
    (hexp : now - s.lastActivity ≥ (tmo : Int) * G_USEC_PER_SEC)
    (hdes : s.destroyed = false) :
    (s.timeout = false →
      sweepSession tmo now s = (some { s with timeout := true }, []) ∧
      tblLookup (janus_check_sessions tmo now st).1.sessions sid =
        some { s with timeout := true }) ∧
    (s.timeout = true →
      sweepSession tmo now s =
        (none, if s.source.isSome then
           [.timeoutMessage s.sessionId, .sessionOver s.sessionId true]
         else []) ∧
      tblLookup (janus_check_sessions tmo now st).1.sessions sid = none ∧
      (s.source.isSome = true →
        XCall.timeoutMessage s.sessionId ∈ (janus_check_sessions tmo now st).2)) := by
  have hmn : janus_check_sessions tmo now st =
      (⟨st.sessions.filterMap (fun p =>
          ((sweepSession tmo now p.2).1).map (fun s' => (p.1, s')))⟩,
       st.sessions.flatMap (fun p => (sweepSession tmo now p.2).2)) := by
    unfold janus_check_sessions
    rw [if_neg (by omega)]
  constructor
  · intro hlatch
    have hsw : sweepSession tmo now s = (some { s with timeout := true }, []) := by
      unfold sweepSession
      rw [if_neg (by simp [hdes]), if_pos hexp, if_neg (by simp [hlatch])]
    refine ⟨hsw, ?_⟩
    rw [hmn]
    have := sweep_lookup tmo now st.sessions sid s hnd hmem
    rw [hsw] at this
    exact this
  · intro hlatch
    have hsw : sweepSession tmo now s =
        (none, if s.source.isSome then
           [.timeoutMessage s.sessionId, .sessionOver s.sessionId true]
         else []) := by
      unfold sweepSession
      rw [if_neg (by simp [hdes]), if_pos hexp, if_pos (by simp [hlatch])]
    refine ⟨hsw, ?_, ?_⟩
    · rw [hmn]
      have := sweep_lookup tmo now st.sessions sid s hnd hmem
      rw [hsw] at this
      exact this
    · intro hsrc
      rw [hmn]
      refine List.mem_flatMap.mpr ⟨(sid, s), hmem, ?_⟩
      rw [hsw, if_pos hsrc]
      exact List.Mem.head _

/-- C1 amended, exercised: with a 60 s timeout, the tick at 61 s leaves the
expired base session latched but registered with nothing sent; a tick at
63 s over the latched registry removes it and emits the timeout
notification. -/
theorem C1_amended_witness :
    tblLookup (janus_check_sessions 60 (61 * G_USEC_PER_SEC) baseState).1.sessions
        42 = some { baseSession with timeout := true } ∧
    tblLookup (janus_check_sessions 60 (63 * G_USEC_PER_SEC) latchedState).1.sessions
        42 = none ∧
    XCall.timeoutMessage 42 ∈ (janus_check_sessions 60 (63 * G_USEC_PER_SEC) latchedState).2 :=
  ⟨((C1_amended 60 (61 * G_USEC_PER_SEC) baseState 42 baseSession (by decide)
      (by simp [baseState]) (List.Mem.head _) (by decide) rfl).1 rfl).2,
   ((C1_amended 60 (63 * G_USEC_PER_SEC) latchedState 42
      { baseSession with timeout := true } (by decide) (by simp [latchedState])
      (List.Mem.head _) (by decide) rfl).2 rfl).2.1,
   ((C1_amended 60 (63 * G_USEC_PER_SEC) latchedState 42
      { baseSession with timeout := true } (by decide) (by simp [latchedState])
      (List.Mem.head _) (by decide) rfl).2 rfl).2.2 rfl⟩

/-! ## C7 and C10: the token→plugin ACL at attach -/

theorem jStringValue_eq_some {o : Option JVal} {t : String}
    (h : jStringValue o = some t) : o = some (.str t) := by
  cases o with
  | none => simp [jStringValue] at h
  | some v =>
    cases v <;> simp [jStringValue] at h
    rw [h]

theorem dispatch_attach (cfg : Config) (ext : Externals) (now : Int)
    (fhid : Nat) (st : ServerState) (root : JObj) (session : Session)
    (sid : Nat) :
    dispatchVerb cfg ext now fhid st root "attach" session sid 0 none =
      processAttachVerb cfg ext fhid st root session sid := by
  unfold dispatchVerb
  rw [if_neg (by decide), if_pos (by decide)]

theorem validate_attach_of_plugin {root : JObj} {p : String}
    (hplug : jStringValue (jget root "plugin") = some p)
    (hopq : checkParam root "opaque_id" false isStr = none) :
    validate_attach root = none := by
  unfold validate_attach checkParam
  rw [jStringValue_eq_some hplug]
  simpa [isStr, Option.orElse] using hopq

/-- C7: an `attach` made while token auth is enabled, carrying a string
token that the ACL does not allow for the (existing) target plugin, is
answered `UNAUTHORIZED_PLUGIN`; the session survives with its handle map
unchanged, and no external call is made (in particular no handle is
created and the plugin's attach hook never runs). -/
theorem C7_unauthorized_attach (cfg : Config) (ext : Externals) (now : Int)
    (fsid fhid inst : Nat) (st : ServerState) (root : JObj)
    (sidI : Int) (sid : Nat) (s : Session) (tok p : String)
    (hval : validate_incoming_request root = none)
    (hjanus : jget root "janus" = some (.str "attach"))
    (hsid : jget root "session_id" = some (.int sidI))
    (hsidv : toU64 sidI = sid) (hsid1 : 1 ≤ sid) (hsids : s.sessionId = sid)
    (hhid : jget root "handle_id" = none)
    (hauth : janus_request_check_secret cfg root = none)
    (hfind : janus_session_find st sid = some s)
    (hplug : jStringValue (jget root "plugin") = some p)
    (hopq : checkParam root "opaque_id" false isStr = none)
    (hex : cfg.pluginExists p = true)
    (hen : cfg.authEnabled = true)
    (htok : jStringValue (jget root "token") = some tok)
    (hden : cfg.checkPlugin tok p = false) :
    janus_process_incoming_request cfg ext now fsid fhid inst st root =
      (.err .unauthorizedPlugin sid,
       storeSession st { s with lastActivity := now }, []) ∧
    janus_session_find (storeSession st { s with lastActivity := now }) sid =
      some { s with lastActivity := now } ∧
    ({ s with lastActivity := now } : Session).iceHandles = s.iceHandles := by
  refine ⟨?_, ?_, rfl⟩
  · rw [main_session_nohandle cfg ext now fsid fhid inst st root "attach"
      sidI sid s hval hjanus hsid hsidv hsid1 hhid hauth hfind, dispatch_attach]
    unfold processAttachVerb
    rw [validate_attach_of_plugin hplug hopq]
    rw [hplug]
    simp only [Option.getD_some]
    rw [if_neg (by simp [hex]), if_pos (by simp [hen, htok, hden])]
  · have hk : ({ s with lastActivity := now } : Session).sessionId = sid := hsids
    rw [janus_session_find, storeSession, ← hk]
    exact tblLookup_insert_self _ _ _

/-- C7, exercised: with token auth on and `tokOK` not allowed for
`plugin.video`, the attach is refused with `UNAUTHORIZED_PLUGIN`, nothing
is called externally, and the session's handle map survives unchanged. -/
theorem C7_unauthorized_attach_witness :
    janus_process_incoming_request tokenCfg okExt 9 0 99 1 baseState
        attachTokRoot =
      (.err .unauthorizedPlugin 42,
       storeSession baseState { baseSession with lastActivity := 9 }, []) :=
  (C7_unauthorized_attach tokenCfg okExt 9 0 99 1 baseState attachTokRoot
    42 42 baseSession "tokOK" "plugin.video" rfl rfl rfl (by decide) (by decide)
    rfl rfl rfl rfl rfl rfl rfl rfl rfl rfl).1

/-- C10: an `attach` made while token auth is enabled but with no `token`
field at all (here authorized by the API secret) skips the token→plugin
ACL entirely: the handle is created, the plugin's attach hook runs, and
the reply is a success carrying the new handle id — for any existing
plugin, even one no token is allowed to access. -/
theorem C10_attach_without_token (cfg : Config) (ext : Externals) (now : Int)
    (fsid fhid inst : Nat) (st : ServerState) (root : JObj)
    (sidI : Int) (sid : Nat) (s : Session) (p : String)
    (hval : validate_incoming_request root = none)
    (hjanus : jget root "janus" = some (.str "attach"))
    (hsid : jget root "session_id" = some (.int sidI))
    (hsidv : toU64 sidI = sid) (hsid1 : 1 ≤ sid) (hsids : s.sessionId = sid)
    (hhid : jget root "handle_id" = none)
    (hauth : janus_request_check_secret cfg root = none)
    (hfind : janus_session_find st sid = some s)
    (hplug : jStringValue (jget root "plugin") = some p)
    (hopq : checkParam root "opaque_id" false isStr = none)
    (hex : cfg.pluginExists p = true)
    (_hen : cfg.authEnabled = true)
    (htok : jget root "token" = none)
    (hok : ext.attachPluginError = 0) :
    (janus_process_incoming_request cfg ext now fsid fhid inst st root).1 =
      .success sid (some fhid) ∧
    (janus_process_incoming_request cfg ext now fsid fhid inst st root).2.2 =
      [.handleAttach p] ∧
    ∃ s', janus_session_find
        (janus_process_incoming_request cfg ext now fsid fhid inst st root).2.1
        sid = some s' ∧
      ∃ h', janus_session_handles_find s' fhid = some h' ∧
        h'.app = some p ∧ h'.handleId = fhid := by
  have hred : janus_process_incoming_request cfg ext now fsid fhid inst st root =
      processAttachVerb cfg ext fhid
        (storeSession st { s with lastActivity := now }) root
        { s with lastActivity := now } sid := by
    rw [main_session_nohandle cfg ext now fsid fhid inst st root "attach"
      sidI sid s hval hjanus hsid hsidv hsid1 hhid hauth hfind, dispatch_attach]
  rw [hred]
  unfold processAttachVerb
  rw [validate_attach_of_plugin hplug hopq]
  rw [hplug]
  simp only [Option.getD_some]
  rw [if_neg (by simp [hex]), if_neg (by simp [htok, jStringValue]),
    if_neg (by simp [hok])]
  refine ⟨rfl, rfl,
    janus_session_handles_insert
      (janus_session_handles_insert { s with lastActivity := now }
        (newIceHandle fhid (jStringValue (jget root "opaque_id"))))
      { newIceHandle fhid (jStringValue (jget root "opaque_id")) with
          app := some p, appHandle := true, appAlive := true },
    ?_,
    { newIceHandle fhid (jStringValue (jget root "opaque_id")) with
        app := some p, appHandle := true, appAlive := true },
    ?_, rfl, rfl⟩
  · show janus_session_find (storeHandle _ _ _) sid = _
    unfold storeHandle janus_session_find storeSession
    have hk : (janus_session_handles_insert
        (janus_session_handles_insert { s with lastActivity := now }
          (newIceHandle fhid (jStringValue (jget root "opaque_id"))))
        { newIceHandle fhid (jStringValue (jget root "opaque_id")) with
            app := some p, appHandle := true, appAlive := true }).sessionId
        = sid := hsids
    rw [← hk]
    exact tblLookup_insert_self _ _ _
  · show janus_session_handles_find (janus_session_handles_insert _ _) fhid = _
    unfold janus_session_handles_find janus_session_handles_insert
    exact tblLookup_insert_self _ _ _

/-- C10, exercised: with token auth enabled and the request authorized by
the API secret alone (no `token` field), the attach to `plugin.video` —
a plugin no token may access — succeeds: a handle with id 99 is created,
bound to the plugin, and the attach hook is invoked. -/
theorem C10_attach_without_token_witness :
    secretTokenCfg.authEnabled = true ∧
    jget attachSecretRoot "token" = none ∧
    (janus_process_incoming_request secretTokenCfg okExt 9 0 99 1 baseState
        attachSecretRoot).1 = .success 42 (some 99) ∧
    (janus_process_incoming_request secretTokenCfg okExt 9 0 99 1 baseState
        attachSecretRoot).2.2 = [.handleAttach "plugin.video"] ∧
    ∃ s', janus_session_find
        (janus_process_incoming_request secretTokenCfg okExt 9 0 99 1 baseState
          attachSecretRoot).2.1 42 = some s' ∧
      ∃ h', janus_session_handles_find s' 99 = some h' ∧
        h'.app = some "plugin.video" ∧ h'.handleId = 99 :=
  ⟨rfl, rfl,
   (C10_attach_without_token secretTokenCfg okExt 9 0 99 1 baseState
      attachSecretRoot 42 42 baseSession "plugin.video" rfl rfl rfl (by decide)
      (by decide) rfl rfl rfl rfl rfl rfl rfl rfl rfl rfl).1,
   (C10_attach_without_token secretTokenCfg okExt 9 0 99 1 baseState
      attachSecretRoot 42 42 baseSession "plugin.video" rfl rfl rfl (by decide)
      (by decide) rfl rfl rfl rfl rfl rfl rfl rfl rfl rfl).2.1,
   (C10_attach_without_token secretTokenCfg okExt 9 0 99 1 baseState
      attachSecretRoot 42 42 baseSession "plugin.video" rfl rfl rfl (by decide)
      (by decide) rfl rfl rfl rfl rfl rfl rfl rfl rfl rfl).2.2⟩

/-! ## C8: an answer without a prior offer -/

theorem dispatch_message (cfg : Config) (ext : Externals) (now : Int)
    (fhid : Nat) (st : ServerState) (root : JObj) (session : Session)
    (sid hid : Nat) (h : Handle) :
    dispatchVerb cfg ext now fhid st root "message" session sid hid (some h) =
      processMessageVerb cfg ext now st root session sid hid h := by
  unfold dispatchVerb
  rw [if_neg (by decide), if_neg (by decide), if_neg (by decide),
    if_neg (by decide), if_neg (by decide), if_pos (by decide)]

/-- C8: a `message` carrying a JSEP answer on a handle with no prior media
session (`¬READY ∨ ALERT`) and no pre-existing ICE agent is answered
`UNEXPECTED_ANSWER`, and no external call is made — in particular neither
`janus_ice_setup_local` nor `janus_sdp_process` runs for that answer. -/
theorem C8_unexpected_answer (cfg : Config) (ext : Externals) (now : Int)
    (fsid fhid inst : Nat) (st : ServerState) (root : JObj) (jf : JObj)
    (sidI hidI : Int) (sid hid : Nat) (s : Session) (h : Handle)
    (hval : validate_incoming_request root = none)
    (hjanus : jget root "janus" = some (.str "message"))
    (hsid : jget root "session_id" = some (.int sidI))
    (hsidv : toU64 sidI = sid) (hsid1 : 1 ≤ sid)
    (hhid : jget root "handle_id" = some (.int hidI))
    (hhidv : toU64 hidI = hid) (hhid1 : 1 ≤ hid)
    (hauth : janus_request_check_secret cfg root = none)
    (hfind : janus_session_find st sid = some s)
    (hhfind : tblLookup s.iceHandles hid = some h)
    (happ : h.app.isSome = true) (hah : h.appHandle = true)
    (hbody : checkParam root "body" true isObj = none)
    (hjsep : jget root "jsep" = some (.obj jf))
    (hjv : validate_jsep jf = none)
    (htype : jStringValue (jget jf "type") = some "answer")
    (hclean : h.flags.cleaning = false)
    (hnew : h.flags.ready = false ∨ h.flags.alert = true)
    (hagent : h.agent = false)
    (hpre : (ext.sdpPreparse ((jStringValue (jget jf "sdp")).getD "")).isSome = true) :
    (janus_process_incoming_request cfg ext now fsid fhid inst st root).1 =
      .err .unexpectedAnswer sid ∧
    (janus_process_incoming_request cfg ext now fsid fhid inst st root).2.2 = [] := by
  obtain ⟨ap, hap⟩ := Option.isSome_iff_exists.mp happ
  obtain ⟨avd, hx⟩ := Option.isSome_iff_exists.mp hpre
  rw [main_session_handle cfg ext now fsid fhid inst st root "message"
    sidI hidI sid hid s h hval hjanus hsid hsidv hsid1 hhid hhidv hhid1 hauth
    hfind hhfind, dispatch_message]
  unfold processMessageVerb
  rw [if_neg (by simp [hap, hah])]
  have hvb : validate_body root = none := hbody
  rw [hvb]
  dsimp only
  rw [hjsep]
  dsimp only
  rw [hjv]
  dsimp only
  rw [htype]
  simp only [Option.getD_some]
  rw [if_neg (by simp [hclean]), if_neg (by decide)]
  simp only [show ceq "answer" "offer" = false from by decide,
    Bool.false_eq_true, if_false]
  unfold processJsepBody
  dsimp only
  obtain ⟨audio, video, data⟩ := avd
  rw [hx]
  dsimp only
  rw [if_pos ?_, if_neg (by simp), if_pos (by simp [hagent])]
  · exact ⟨rfl, rfl⟩
  · rcases hnew with hr | ha
    · simp [hr]
    · simp [ha]

/-- C8, exercised: an answer on the fresh base handle (no offer made, no
agent) is refused with `UNEXPECTED_ANSWER` and no external call occurs. -/
theorem C8_unexpected_answer_witness :
    (janus_process_incoming_request noAuthCfg okExt 9 0 0 1 baseState
        msgAnswerRoot).1 = .err .unexpectedAnswer 42 ∧
    (janus_process_incoming_request noAuthCfg okExt 9 0 0 1 baseState
        msgAnswerRoot).2.2 = [] :=
  C8_unexpected_answer noAuthCfg okExt 9 0 0 1 baseState msgAnswerRoot
    [("type", .str "answer"), ("sdp", .str "v=0")] 42 7 42 7 baseSession
    echoHandle rfl rfl rfl (by decide) (by decide) rfl (by decide) (by decide)
    rfl rfl rfl rfl rfl rfl rfl rfl rfl rfl (Or.inl rfl) rfl rfl

/-! ## C6: session creation -/

/-- C6: an authorized `create` with a caller-chosen nonzero id already in
the registry is answered `SESSION_CONFLICT` with the registry unchanged
and no notification sent; otherwise a session is created — under the
caller's nonzero id when one was supplied and free, under the fresh
random nonzero id otherwise — inserted into the registry bound to the
originating transport, and the success reply carries `data.id` equal to
that session's id. -/
theorem C6_create (cfg : Config) (ext : Externals) (now : Int)
    (fsid fhid inst : Nat) (st : ServerState) (root : JObj)
    (hval : validate_incoming_request root = none)
    (hjanus : jget root "janus" = some (.str "create"))
    (hnosid : jget root "session_id" = none)
    (hnohid : jget root "handle_id" = none)
    (hauth : janus_request_check_secret cfg root = none)
    (_hfresh : fsid ≠ 0) (_hfree : janus_session_find st fsid = none) :
    (0 < createRequestedId root →
      (janus_session_find st (createRequestedId root)).isSome = true →
      janus_process_incoming_request cfg ext now fsid fhid inst st root =
        (.err .sessionConflict (createRequestedId root), st, [])) ∧
    (0 < createRequestedId root →
      janus_session_find st (createRequestedId root) = none →
      (janus_process_incoming_request cfg ext now fsid fhid inst st root).1 =
        .success 0 (some (createRequestedId root)) ∧
      janus_session_find
          (janus_process_incoming_request cfg ext now fsid fhid inst st root).2.1
          (createRequestedId root) =
        some { sessionId := createRequestedId root, destroyed := false,
               timeout := false, lastActivity := now, iceHandles := [],
               source := some inst }) ∧
    (createRequestedId root = 0 →
      (janus_process_incoming_request cfg ext now fsid fhid inst st root).1 =
        .success 0 (some fsid) ∧
      janus_session_find
          (janus_process_incoming_request cfg ext now fsid fhid inst st root).2.1
          fsid =
        some { sessionId := fsid, destroyed := false, timeout := false,
               lastActivity := now, iceHandles := [], source := some inst }) := by
  have hred : janus_process_incoming_request cfg ext now fsid fhid inst st root =
      processRootPath cfg now fsid inst st root "create" := by
    unfold janus_process_incoming_request
    rw [hval]
    simp only [hnosid, hnohid, hjanus, jIsInteger, jStringValue,
      Option.getD_some, Option.isSome_none]
    simp
  rw [hred]
  unfold processRootPath
  rw [if_neg (by decide), if_neg (by decide), if_neg (by decide), hauth]
  refine ⟨fun h1 h2 => ?_, fun h1 h2 => ?_, fun h0 => ?_⟩
  · rw [if_pos (by simp [h1, h2])]
  · rw [if_neg (by simp [h2])]
    unfold janus_session_create
    rw [if_neg (by omega)]
    dsimp only
    refine ⟨rfl, ?_⟩
    exact tblLookup_insert_self _ _ _
  · rw [if_neg (by simp [h0])]
    unfold janus_session_create
    rw [h0, if_pos rfl]
    dsimp only
    refine ⟨rfl, ?_⟩
    exact tblLookup_insert_self _ _ _

/-- C6, exercised: creating over the taken id 42 conflicts; creating with
the free caller id 55 succeeds with `data.id = 55`; creating without an
id uses the fresh random id 99 and replies `data.id = 99`. -/
theorem C6_create_witness :
    janus_process_incoming_request noAuthCfg okExt 9 99 0 1 baseState
        [("janus", .str "create"), ("transaction", .str "t"), ("id", .int 42)] =
      (.err .sessionConflict 42, baseState, []) ∧
    (janus_process_incoming_request noAuthCfg okExt 9 99 0 1 baseState
        [("janus", .str "create"), ("transaction", .str "t"), ("id", .int 55)]).1 =
      .success 0 (some 55) ∧
    (janus_process_incoming_request noAuthCfg okExt 9 99 0 1 baseState
        [("janus", .str "create"), ("transaction", .str "t")]).1 =
      .success 0 (some 99) :=
  ⟨(C6_create noAuthCfg okExt 9 99 0 1 baseState
      [("janus", .str "create"), ("transaction", .str "t"), ("id", .int 42)]
      rfl rfl rfl rfl rfl (by decide) rfl).1 (by decide) rfl,
   ((C6_create noAuthCfg okExt 9 99 0 1 baseState
      [("janus", .str "create"), ("transaction", .str "t"), ("id", .int 55)]
      rfl rfl rfl rfl rfl (by decide) rfl).2.1 (by decide) rfl).1,
   ((C6_create noAuthCfg okExt 9 99 0 1 baseState
      [("janus", .str "create"), ("transaction", .str "t")]
      rfl rfl rfl rfl rfl (by decide) rfl).2.2 rfl).1⟩

/-! ## C5: destroy, the destroyed latch, and registry liveness -/

theorem live_create (fsid rid : Nat) (now : Int) {st : ServerState}
    (hlive : RegistryLive st) :
    RegistryLive (janus_session_create fsid rid now st).2 := by
  unfold janus_session_create
  dsimp only
  intro p hp
  rcases List.mem_cons.mp hp with h | h
  · subst h; rfl
  · exact hlive _ (List.mem_of_mem_filter h)

theorem live_processRootPath (cfg : Config) (now : Int) (fsid inst : Nat)
    (st : ServerState) (root : JObj) (verb : String)
    (hlive : RegistryLive st) :
    RegistryLive (processRootPath cfg now fsid inst st root verb).2.1 := by
  unfold processRootPath
  dsimp only
  repeat' split
  all_goals first
    | exact hlive
    | exact live_store (live_create _ _ _ hlive) rfl

theorem live_deliverToPlugin (ext : Externals) (st : ServerState)
    (session : Session) (sid hid : Nat) (h : Handle) (trace : List XCall)
    (hlive : RegistryLive st) (hs : session.destroyed = false) :
    RegistryLive (deliverToPlugin ext st session sid hid h trace).2.1 := by
  unfold deliverToPlugin
  dsimp only
  repeat' split
  all_goals exact live_storeHandle hlive hs

theorem live_processJsepBody (cfg : Config) (ext : Externals) (now : Int)
    (st : ServerState) (session : Session) (sid hid : Nat) (h : Handle)
    (offer doTrickle : Bool) (sdp : String)
    (hlive : RegistryLive st) (hs : session.destroyed = false) :
    RegistryLive (processJsepBody cfg ext now st session sid hid h offer
      doTrickle sdp).2.1 := by
  unfold processJsepBody
  dsimp only
  repeat' split
  all_goals first
    | exact live_storeHandle hlive hs
    | exact live_deliverToPlugin _ _ _ _ _ _ _ hlive hs

theorem live_processMessageVerb (cfg : Config) (ext : Externals) (now : Int)
    (st : ServerState) (root : JObj) (session : Session) (sid hid : Nat)
    (h : Handle) (hlive : RegistryLive st) (hs : session.destroyed = false) :
    RegistryLive (processMessageVerb cfg ext now st root session sid hid h).2.1 := by
  unfold processMessageVerb
  dsimp only
  repeat' split
  all_goals first
    | exact hlive
    | exact live_storeHandle hlive hs
    | exact live_deliverToPlugin _ _ _ _ _ _ _ hlive hs
    | exact live_processJsepBody _ _ _ _ _ _ _ _ _ _ _ hlive hs

theorem live_processTrickleVerb (ext : Externals) (now : Int)
    (st : ServerState) (root : JObj) (session : Session) (sid hid : Nat)
    (h : Handle) (hlive : RegistryLive st) (hs : session.destroyed = false) :
    RegistryLive (processTrickleVerb ext now st root session sid hid h).2.1 := by
  unfold processTrickleVerb
  dsimp only
  repeat' split
  all_goals first
    | exact hlive
    | exact live_storeHandle hlive hs

theorem live_processAttachVerb (cfg : Config) (ext : Externals) (fhid : Nat)
    (st : ServerState) (root : JObj) (session : Session) (sid : Nat)
    (hlive : RegistryLive st) (hs : session.destroyed = false) :
    RegistryLive (processAttachVerb cfg ext fhid st root session sid).2.1 := by
  unfold processAttachVerb
  dsimp only
  repeat' split
  all_goals first
    | exact hlive
    | exact live_store (live_store hlive hs) hs

theorem live_dispatchVerb (cfg : Config) (ext : Externals) (now : Int)
    (fhid : Nat) (st : ServerState) (root : JObj) (verb : String)
    (session : Session) (sid hid : Nat) (handle : Option Handle)
    (hlive : RegistryLive st) (hs : session.destroyed = false) :
    RegistryLive (dispatchVerb cfg ext now fhid st root verb session sid hid
      handle).2.1 := by
  unfold dispatchVerb
  dsimp only
  repeat' split
  all_goals first
    | exact hlive
    | exact live_removeTbl _ hlive
    | exact live_store hlive hs
    | exact live_processAttachVerb _ _ _ _ _ _ _ hlive hs
    | exact live_processMessageVerb _ _ _ _ _ _ _ _ _ hlive hs
    | exact live_processTrickleVerb _ _ _ _ _ _ _ _ hlive hs

theorem live_processSessionPath (cfg : Config) (ext : Externals) (now : Int)
    (fhid : Nat) (st : ServerState) (root : JObj) (verb : String)
    (sid hid : Nat) (hp : Bool) (hlive : RegistryLive st) :
    RegistryLive (processSessionPath cfg ext now fhid st root verb sid hid
      hp).2.1 := by
  unfold processSessionPath
  dsimp only
  split
  · exact hlive
  · split
    · exact hlive
    · split
      · exact hlive
      · split
        · exact hlive
        · next s0 heq =>
          have hs0 : s0.destroyed = false := find_live hlive heq
          split
          · split
            · exact live_store hlive hs0
            · exact live_dispatchVerb _ _ _ _ _ _ _ _ _ _ _
                (live_store hlive hs0) hs0
          · exact live_dispatchVerb _ _ _ _ _ _ _ _ _ _ _
              (live_store hlive hs0) hs0

theorem live_process (cfg : Config) (ext : Externals) (now : Int)
    (fsid fhid inst : Nat) (st : ServerState) (root : JObj)
    (hlive : RegistryLive st) :
    RegistryLive (janus_process_incoming_request cfg ext now fsid fhid inst st
      root).2.1 := by
  unfold janus_process_incoming_request
  dsimp only
  repeat' split
  all_goals first
    | exact hlive
    | exact live_processRootPath _ _ _ _ _ _ _ hlive
    | exact live_processSessionPath _ _ _ _ _ _ _ _ _ _ hlive

theorem sweep_destroyed {tmo : Nat} {now : Int} {s s' : Session}
    (h : (sweepSession tmo now s).1 = some s') :
    s'.destroyed = s.destroyed := by
  unfold sweepSession at h
  split at h
  · injection h with h'; rw [← h']
  · split at h
    · split at h
      · cases h
      · injection h with h'; rw [← h']
    · injection h with h'; rw [← h']

theorem live_check_sessions (tmo : Nat) (now : Int) (st : ServerState)
    (hlive : RegistryLive st) :
    RegistryLive (janus_check_sessions tmo now st).1 := by
  unfold janus_check_sessions
  split
  · exact hlive
  · intro p hp
    obtain ⟨q, hq, hpq⟩ := List.mem_filterMap.mp hp
    obtain ⟨s', hs', heq⟩ := Option.map_eq_some'.mp hpq
    rw [← heq]
    show s'.destroyed = false
    rw [sweep_destroyed hs']
    exact hlive _ hq

theorem live_transport_gone (st : ServerState) (inst : Nat)
    (hlive : RegistryLive st) :
    RegistryLive (janus_transport_gone st inst) := by
  intro p hp
  exact hlive _ (List.mem_of_mem_filter hp)

theorem dispatch_destroy (cfg : Config) (ext : Externals) (now : Int)
    (fhid : Nat) (st : ServerState) (root : JObj) (session : Session)
    (sid : Nat) :
    dispatchVerb cfg ext now fhid st root "destroy" session sid 0 none =
      (.success sid none, ⟨tblRemove st.sessions session.sessionId⟩,
       if session.source.isSome then [XCall.sessionOver sid false] else []) := by
  unfold dispatchVerb
  rw [if_neg (by decide), if_neg (by decide), if_pos (by decide)]

theorem main_session_notfound (cfg : Config) (ext : Externals) (now : Int)
    (fsid fhid inst : Nat) (st : ServerState) (root : JObj) (verb : String)
    (sidI : Int) (sid : Nat)
    (hval : validate_incoming_request root = none)
    (hjanus : jget root "janus" = some (.str verb))
    (hsid : jget root "session_id" = some (.int sidI))
    (hsidv : toU64 sidI = sid) (hsid1 : 1 ≤ sid)
    (hhid : jget root "handle_id" = none)
    (hauth : janus_request_check_secret cfg root = none)
    (hnf : janus_session_find st sid = none) :
    janus_process_incoming_request cfg ext now fsid fhid inst st root =
      (.err .sessionNotFound sid, st, []) := by
  unfold janus_process_incoming_request
  rw [hval]
  simp only [hsid, hhid, hjanus, jIsInteger, jIntegerValue, jStringValue,
    Option.getD_some, Option.isSome_none, Option.isSome_some, if_true, ite_true,
    ite_false, if_false, hsidv]
  rw [if_neg (by simp; omega)]
  unfold processSessionPath
  rw [if_neg (by omega), if_neg (by simp), hauth, hnf]

/-- C5: a first `destroy` of a live session replies `success` and removes
the session from the registry; an identical second `destroy` replies
`SESSION_NOT_FOUND` and changes nothing. The `destroyed` flag is a
one-way latch (`janus_session_destroy` always leaves it set, and is a
no-op on an already-destroyed session), a registry lookup never returns
a destroyed session in a live registry, and registry liveness (no
destroyed session stays in the table) is preserved by the request
dispatcher, the timeout sweeper, and `transport_gone`. -/
theorem C5_destroy_lifecycle (cfg : Config) (ext : Externals) (now now2 : Int)
    (fsid fhid inst : Nat) (st : ServerState) (root : JObj)
    (sidI : Int) (sid : Nat) (s : Session)
    (hval : validate_incoming_request root = none)
    (hjanus : jget root "janus" = some (.str "destroy"))
    (hsid : jget root "session_id" = some (.int sidI))
    (hsidv : toU64 sidI = sid) (hsid1 : 1 ≤ sid) (hsids : s.sessionId = sid)
    (hhid : jget root "handle_id" = none)
    (hauth : janus_request_check_secret cfg root = none)
    (hfind : janus_session_find st sid = some s) :
    (janus_process_incoming_request cfg ext now fsid fhid inst st root).1 =
      .success sid none ∧
    janus_session_find
      (janus_process_incoming_request cfg ext now fsid fhid inst st root).2.1
      sid = none ∧
    janus_process_incoming_request cfg ext now2 fsid fhid inst
        (janus_process_incoming_request cfg ext now fsid fhid inst st root).2.1
        root =
      (.err .sessionNotFound sid,
       (janus_process_incoming_request cfg ext now fsid fhid inst st root).2.1,
       []) ∧
    (∀ s' : Session, (janus_session_destroy s').destroyed = true) ∧
    (∀ s' : Session, s'.destroyed = true → janus_session_destroy s' = s') ∧
    (∀ (st' : ServerState) (sid' : Nat) (s'' : Session), RegistryLive st' →
       janus_session_find st' sid' = some s'' → s''.destroyed = false) ∧
    (∀ (cfg' : Config) (ext' : Externals) (now' : Int) (fs' fh' i' : Nat)
       (st' : ServerState) (root' : JObj), RegistryLive st' →
       RegistryLive (janus_process_incoming_request cfg' ext' now' fs' fh' i'
         st' root').2.1) ∧
    (∀ (tmo' : Nat) (now' : Int) (st' : ServerState), RegistryLive st' →
       RegistryLive (janus_check_sessions tmo' now' st').1) ∧
    (∀ (st' : ServerState) (i' : Nat), RegistryLive st' →
       RegistryLive (janus_transport_gone st' i')) := by
  have hred : janus_process_incoming_request cfg ext now fsid fhid inst st root =
      (.success sid none,
       ⟨tblRemove (storeSession st { s with lastActivity := now }).sessions
          ({ s with lastActivity := now } : Session).sessionId⟩,
       if ({ s with lastActivity := now } : Session).source.isSome then
         [XCall.sessionOver sid false] else []) := by
    rw [main_session_nohandle cfg ext now fsid fhid inst st root "destroy"
      sidI sid s hval hjanus hsid hsidv hsid1 hhid hauth hfind,
      dispatch_destroy]
  have hgone : janus_session_find
      (janus_process_incoming_request cfg ext now fsid fhid inst st root).2.1
      sid = none := by
    rw [hred]
    show tblLookup (tblRemove _ ({ s with lastActivity := now } : Session).sessionId) sid = none
    have hk : ({ s with lastActivity := now } : Session).sessionId = sid := hsids
    rw [hk]
    exact tblLookup_remove_self _ _
  refine ⟨by rw [hred], hgone, ?_, ?_, ?_, ?_, ?_, ?_, ?_⟩
  · rw [main_session_notfound cfg ext now2 fsid fhid inst _ root "destroy"
      sidI sid hval hjanus hsid hsidv hsid1 hhid hauth hgone]
  · intro s'
    unfold janus_session_destroy
    split
    · assumption
    · rfl
  · intro s' hs'
    unfold janus_session_destroy
    rw [if_pos hs']
  · intro st' sid' s'' hlive hf
    exact find_live hlive hf
  · intro cfg' ext' now' fs' fh' i' st' root' hlive
    exact live_process _ _ _ _ _ _ _ _ hlive
  · intro tmo' now' st' hlive
    exact live_check_sessions _ _ _ hlive
  · intro st' i' hlive
    exact live_transport_gone _ _ hlive

/-- C5, exercised: destroying session 42 succeeds and removes it; the
identical second destroy is answered `SESSION_NOT_FOUND`. -/
theorem C5_destroy_lifecycle_witness :
    (janus_process_incoming_request noAuthCfg okExt 9 0 0 1 baseState
        destroyRoot).1 = .success 42 none ∧
    janus_process_incoming_request noAuthCfg okExt 11 0 0 1
        (janus_process_incoming_request noAuthCfg okExt 9 0 0 1 baseState
          destroyRoot).2.1 destroyRoot =
      (.err .sessionNotFound 42,
       (janus_process_incoming_request noAuthCfg okExt 9 0 0 1 baseState
         destroyRoot).2.1, []) :=
  ⟨(C5_destroy_lifecycle noAuthCfg okExt 9 11 0 0 1 baseState destroyRoot 42 42
      baseSession rfl rfl rfl (by decide) (by decide) rfl rfl rfl rfl).1,
   (C5_destroy_lifecycle noAuthCfg okExt 9 11 0 0 1 baseState destroyRoot 42 42
      baseSession rfl rfl rfl (by decide) (by decide) rfl rfl rfl rfl).2.2.1⟩

end Janus
